import Mathlib

/-!
Verification of the `variar/rust-minidump` core against its specification.

Part 1: the overlap-tolerant range-map builder
(`minidump-common/src/traits.rs`, `IntoRangeMapSafe::into_rangemap_safe`).

The builder takes a list of `(Range<u64>, V)` pairs, sorts it with the
stable `Vec::sort_by_key(|x| x.0)` (the key is the whole `Range`, whose
derived `Ord` is lexicographic on `(start, end)`), and then scans the
sorted list keeping a vector of accepted entries:
  * if `range.start <= last_range.end && val != last_val` the entry is
    dropped and a warning is logged;
  * else if `range.start <= last_range.end.saturating_add(1) && val == last_val`
    the last entry is extended: `last_range.end = max(range.end, last_range.end)`;
  * otherwise the entry is pushed.

`u64` values are embedded as `Nat` together with explicit bounds `< 2^64`
where overflow matters; `saturating_add(1)` is `min (n+1) (2^64-1)`.
-/

set_option maxRecDepth 100000

set_option maxHeartbeats 1000000

namespace RangeMapSafe

/-- The inclusive range `[start, end]` of the `range-map` crate.  Its derived
`Ord` (used by `sort_by_key`) is lexicographic on `(start, end_)`. -/
structure Range where
  start : Nat
  end_ : Nat
  deriving DecidableEq, Repr

/-- One `(range, value)` input pair. -/
abbrev Entry (V : Type) := Range × V

/-- A logged overlap warning: the accepted entry and the dropped entry
(`warn!("overlapping ranges {:?} and {:?} map to values {:?} and {:?}", ...)`). -/
abbrev Warn (V : Type) := Entry V × Entry V

/-- Lexicographic order of the derived `Ord` on `Range`. -/
def leRange (a b : Range) : Prop :=
  a.start < b.start ∨ (a.start = b.start ∧ a.end_ ≤ b.end_)

instance : DecidableRel leRange := fun a b => by
  unfold leRange; infer_instance

/-- The sort key of `input.sort_by_key(|x| x.0)`: entries are compared by
their whole `Range`, lexicographically. -/
def entryLE {V : Type} (x y : Entry V) : Prop := leRange x.1 y.1

instance {V : Type} : DecidableRel (entryLE (V := V)) := fun x y => by
  unfold entryLE; infer_instance

instance {V : Type} : IsTotal (Entry V) entryLE where
  total x y := by
    rcases Nat.lt_trichotomy x.1.start y.1.start with h | h | h
    · exact Or.inl (Or.inl h)
    · rcases Nat.le_total x.1.end_ y.1.end_ with h2 | h2
      · exact Or.inl (Or.inr ⟨h, h2⟩)
      · exact Or.inr (Or.inr ⟨h.symm, h2⟩)
    · exact Or.inr (Or.inl h)

instance {V : Type} : IsTrans (Entry V) entryLE where
  trans x y z hxy hyz := by
    rcases hxy with h1 | ⟨h1, h1e⟩ <;> rcases hyz with h2 | ⟨h2, h2e⟩
    · exact Or.inl (h1.trans h2)
    · exact Or.inl (h2 ▸ h1)
    · exact Or.inl (h1 ▸ h2)
    · exact Or.inr ⟨h1.trans h2, h1e.trans h2e⟩

/-- `input.sort_by_key(|x| x.0)`: a stable sort by the lexicographic range
key, embedded as insertion sort (which is stable). -/
def sortEntries {V : Type} (l : List (Entry V)) : List (Entry V) :=
  List.insertionSort entryLE l

/-- `u64::saturating_add(1)` on values embedded as `Nat` (faithful on the
`u64` domain `n < 2^64`). -/
def satSucc (n : Nat) : Nat := min (n + 1) (2 ^ 64 - 1)

/-- The scan loop of `into_rangemap_safe`.  `acc` holds the accepted entries
in reverse chronological order (its head is `vec.last`), `ws` the warnings
logged so far; the result restores chronological order. -/
def scanRev {V : Type} [DecidableEq V] :
    List (Entry V) → List (Entry V) → List (Warn V) → List (Entry V) × List (Warn V)
  | [], acc, ws => (acc.reverse, ws)
  | (r, v) :: rest, [], ws => scanRev rest [(r, v)] ws
  | (r, v) :: rest, (lr, lv) :: acc, ws =>
    if r.start ≤ lr.end_ ∧ v ≠ lv then
      scanRev rest ((lr, lv) :: acc) (ws ++ [((lr, lv), (r, v))])
    else if r.start ≤ satSucc lr.end_ ∧ v = lv then
      scanRev rest ((⟨lr.start, max r.end_ lr.end_⟩, lv) :: acc) ws
    else
      scanRev rest ((r, v) :: (lr, lv) :: acc) ws

/-- `into_rangemap_safe` together with the warnings it logs.  The resulting
entry list is the sorted vector handed to `RangeMap::from_sorted_vec`, i.e.
the map's entries in iteration order. -/
def into_rangemap_safe_w {V : Type} [DecidableEq V] (input : List (Entry V)) :
    List (Entry V) × List (Warn V) :=
  scanRev (sortEntries input) [] []

/-- The entries of the map returned by `into_rangemap_safe`, in iteration
order. -/
def into_rangemap_safe {V : Type} [DecidableEq V] (input : List (Entry V)) :
    List (Entry V) :=
  (into_rangemap_safe_w input).1

/-- An address is contained in an entry when it lies in its inclusive range. -/
def containsAddr {V : Type} (e : Entry V) (a : Nat) : Prop :=
  e.1.start ≤ a ∧ a ≤ e.1.end_

instance {V : Type} (e : Entry V) (a : Nat) : Decidable (containsAddr e a) := by
  unfold containsAddr; infer_instance

/-- Adjacent-entry gap invariant, in iteration order. -/
def gapRel {V : Type} (a b : Entry V) : Prop := a.1.end_ < b.1.start

/-- Entry starts are nondecreasing in iteration order. -/
def startLE {V : Type} (a b : Entry V) : Prop := a.1.start ≤ b.1.start

/-- Disjointness of two entries: no address lies in both. -/
def entriesDisjoint {V : Type} (a b : Entry V) : Prop :=
  ∀ addr : Nat, ¬(containsAddr a addr ∧ containsAddr b addr)

end RangeMapSafe

/-!
Part 2: the CPU-context decoder (`src/context.rs`).

`MinidumpRawContext` is a sum of nine architecture-specific register
records.  Machine integers are embedded as `Nat` with well-formedness
predicates bounding them by the register width; register arrays are
`List Nat` whose length is fixed by the well-formedness predicate.  Rust
panics (`unreachable!`, `unimplemented!`) are embedded as `none`, and
in-place mutation (`set_register(&mut self) -> Option<()>`) as a
`(Option Unit × record)` pair whose second component is the record after
the call.  Only the record fields that the verified operations read are
carried; the remaining fields (float state, debug registers, …) are never
observed by any verified operation.
-/

namespace MinidumpCtx

/-- Lowercase hex digit, as produced by Rust's `{:x}` formatting. -/
def hexDigitChar (n : Nat) : Char :=
  if n < 10 then Char.ofNat (48 + n) else Char.ofNat (87 + n)

/-- Fuel-indexed most-significant-first hex digits of `n`. -/
def hexCharsAux : Nat → Nat → List Char
  | 0, _ => []
  | fuel + 1, n =>
    if n < 16 then [hexDigitChar n]
    else hexCharsAux fuel (n / 16) ++ [hexDigitChar (n % 16)]

/-- The hex digits of `n`, most significant first (`{:x}`). -/
def hexChars (n : Nat) : List Char := hexCharsAux (n + 1) n

/-- Rust's `format!("0x{:01$x}", v, width)`: `0x` followed by the hex digits
of `v` left-padded with zeros to at least `width` digits. -/
def formatHex (width n : Nat) : String :=
  ⟨'0' :: 'x' :: (List.replicate (width - (hexChars n).length) '0' ++ hexChars n)⟩

/-- x86 context record (`md::CONTEXT_X86`); only the fields read by the
verified operations are carried, all `u32`. -/
structure CONTEXT_X86 where
  context_flags : Nat
  eip : Nat
  esp : Nat
  ebp : Nat
  ebx : Nat
  esi : Nat
  edi : Nat
  eax : Nat
  ecx : Nat
  edx : Nat
  eflags : Nat
  deriving DecidableEq, Repr

/-- x86-64 context record (`md::CONTEXT_AMD64`); `context_flags` is `u32`,
the registers are `u64`. -/
structure CONTEXT_AMD64 where
  context_flags : Nat
  rax : Nat
  rdx : Nat
  rcx : Nat
  rbx : Nat
  rsi : Nat
  rdi : Nat
  rbp : Nat
  rsp : Nat
  r8 : Nat
  r9 : Nat
  r10 : Nat
  r11 : Nat
  r12 : Nat
  r13 : Nat
  r14 : Nat
  r15 : Nat
  rip : Nat
  deriving DecidableEq, Repr

/-- aarch64 context record (`md::CONTEXT_ARM64`): `u32` flags, 32 `u64`
integer registers and a separate `u64` `pc`. -/
structure CONTEXT_ARM64 where
  context_flags : Nat
  iregs : List Nat
  pc : Nat
  cpsr : Nat
  deriving DecidableEq, Repr

/-- Old (Breakpad) aarch64 context record (`md::CONTEXT_ARM64_OLD`), packed,
with `u64` flags. -/
structure CONTEXT_ARM64_OLD where
  context_flags : Nat
  iregs : List Nat
  pc : Nat
  cpsr : Nat
  deriving DecidableEq, Repr

/-- ARM-32 context record (`md::CONTEXT_ARM`): 16 `u32` integer registers. -/
structure CONTEXT_ARM where
  context_flags : Nat
  iregs : List Nat
  cpsr : Nat
  deriving DecidableEq, Repr

/-- PPC context record (`md::CONTEXT_PPC`): `u32` fields, 32 `u32` GPRs. -/
structure CONTEXT_PPC where
  context_flags : Nat
  srr0 : Nat
  gpr : List Nat
  deriving DecidableEq, Repr

/-- PPC64 context record (`md::CONTEXT_PPC64`): `u64` fields, 32 `u64` GPRs. -/
structure CONTEXT_PPC64 where
  context_flags : Nat
  srr0 : Nat
  gpr : List Nat
  deriving DecidableEq, Repr

/-- SPARC context record (`md::CONTEXT_SPARC`): `u64` fields. -/
structure CONTEXT_SPARC where
  context_flags : Nat
  pc : Nat
  g_r : List Nat
  deriving DecidableEq, Repr

/-- MIPS context record (`md::CONTEXT_MIPS`): `u64` registers. -/
structure CONTEXT_MIPS where
  context_flags : Nat
  epc : Nat
  iregs : List Nat
  deriving DecidableEq, Repr

/-- Modelled from the spec: `md::ArmRegisterNumbers` is in `format.rs`,
which is not under `src/`; the spec fixes ARM-32's instruction pointer to
`iregs[15]` and stack pointer to `iregs[13]`. -/
def ArmRegisterNumbers.programCounter : Nat := 15

/-- Modelled from the spec: ARM-32 stack pointer slot `iregs[13]`. -/
def ArmRegisterNumbers.stackPointer : Nat := 13

/-- Modelled from the spec: `md::Arm64RegisterNumbers::FramePointer`; the
spec fixes the ARM64 alias `fp → x29`. -/
def Arm64RegisterNumbers.framePointer : Nat := 29

/-- Modelled from the spec: `md::Arm64RegisterNumbers::StackPointer`; the
spec fixes the ARM64 alias `sp → x31`. -/
def Arm64RegisterNumbers.stackPointer : Nat := 31

/-- Modelled from the spec: `md::PpcRegisterNumbers::StackPointer`
(`format.rs` is not under `src/`); PPC's stack pointer is `r1` in the
Breakpad layout the spec requires. -/
def PpcRegisterNumbers.stackPointer : Nat := 1

/-- Modelled from the spec: `md::Ppc64RegisterNumbers::StackPointer` (`r1`). -/
def Ppc64RegisterNumbers.stackPointer : Nat := 1

/-- Modelled from the spec: `md::SparcRegisterNumbers::StackPointer`
(`%o6`, slot 14 of `g_r` in the Breakpad layout). -/
def SparcRegisterNumbers.stackPointer : Nat := 14

/-- Modelled from the spec: `md::MipsRegisterNumbers::StackPointer`
(`r29` in the Breakpad layout). -/
def MipsRegisterNumbers.stackPointer : Nat := 29

/-- General-purpose registers for x86 (`static X86_REGS`). -/
def X86_REGS : List String :=
  ["eip", "esp", "ebp", "ebx", "esi", "edi", "eax", "ecx", "edx", "efl"]

/-- General-purpose registers for x86-64 (`static X86_64_REGS`). -/
def X86_64_REGS : List String :=
  ["rax", "rdx", "rcx", "rbx", "rsi", "rdi", "rbp", "rsp", "r8", "r9", "r10",
    "r11", "r12", "r13", "r14", "r15", "rip"]

/-- General-purpose registers for aarch64 (`static ARM64_REGS`). -/
def ARM64_REGS : List String :=
  ["x0", "x1", "x2", "x3", "x4", "x5", "x6", "x7", "x8", "x9", "x10", "x11",
    "x12", "x13", "x14", "x15", "x16", "x17", "x18", "x19", "x20", "x21",
    "x22", "x23", "x24", "x25", "x26", "x27", "x28", "x29", "x30", "x31", "pc"]

/-- `CpuContext::get_register_always` for x86; the catch-all arm is
`unreachable!("Invalid x86 register!")`, embedded as `none`. -/
def CONTEXT_X86.get_register_always (c : CONTEXT_X86) (reg : String) : Option Nat :=
  if reg = "eip" then some c.eip
  else if reg = "esp" then some c.esp
  else if reg = "ebp" then some c.ebp
  else if reg = "ebx" then some c.ebx
  else if reg = "esi" then some c.esi
  else if reg = "edi" then some c.edi
  else if reg = "eax" then some c.eax
  else if reg = "ecx" then some c.ecx
  else if reg = "edx" then some c.edx
  else if reg = "efl" then some c.eflags
  else none

/-- `CpuContext::set_register` for x86: `(return value, record after call)`. -/
def CONTEXT_X86.set_register (c : CONTEXT_X86) (reg : String) (v : Nat) :
    Option Unit × CONTEXT_X86 :=
  if reg = "eip" then (some (), { c with eip := v })
  else if reg = "esp" then (some (), { c with esp := v })
  else if reg = "ebp" then (some (), { c with ebp := v })
  else if reg = "ebx" then (some (), { c with ebx := v })
  else if reg = "esi" then (some (), { c with esi := v })
  else if reg = "edi" then (some (), { c with edi := v })
  else if reg = "eax" then (some (), { c with eax := v })
  else if reg = "ecx" then (some (), { c with ecx := v })
  else if reg = "edx" then (some (), { c with edx := v })
  else if reg = "efl" then (some (), { c with eflags := v })
  else (none, c)

/-- `CpuContext::format_register` for x86: `Register = u32`, so the value is
formatted to `size_of::<u32>() * 2 = 8` hex digits. -/
def CONTEXT_X86.format_register (c : CONTEXT_X86) (reg : String) : Option String :=
  (c.get_register_always reg).map (formatHex 8)

/-- `CpuContext::get_register_always` for x86-64. -/
def CONTEXT_AMD64.get_register_always (c : CONTEXT_AMD64) (reg : String) : Option Nat :=
  if reg = "rax" then some c.rax
  else if reg = "rdx" then some c.rdx
  else if reg = "rcx" then some c.rcx
  else if reg = "rbx" then some c.rbx
  else if reg = "rsi" then some c.rsi
  else if reg = "rdi" then some c.rdi
  else if reg = "rbp" then some c.rbp
  else if reg = "rsp" then some c.rsp
  else if reg = "r8" then some c.r8
  else if reg = "r9" then some c.r9
  else if reg = "r10" then some c.r10
  else if reg = "r11" then some c.r11
  else if reg = "r12" then some c.r12
  else if reg = "r13" then some c.r13
  else if reg = "r14" then some c.r14
  else if reg = "r15" then some c.r15
  else if reg = "rip" then some c.rip
  else none

/-- `CpuContext::set_register` for x86-64. -/
def CONTEXT_AMD64.set_register (c : CONTEXT_AMD64) (reg : String) (v : Nat) :
    Option Unit × CONTEXT_AMD64 :=
  if reg = "rax" then (some (), { c with rax := v })
  else if reg = "rdx" then (some (), { c with rdx := v })
  else if reg = "rcx" then (some (), { c with rcx := v })
  else if reg = "rbx" then (some (), { c with rbx := v })
  else if reg = "rsi" then (some (), { c with rsi := v })
  else if reg = "rdi" then (some (), { c with rdi := v })
  else if reg = "rbp" then (some (), { c with rbp := v })
  else if reg = "rsp" then (some (), { c with rsp := v })
  else if reg = "r8" then (some (), { c with r8 := v })
  else if reg = "r9" then (some (), { c with r9 := v })
  else if reg = "r10" then (some (), { c with r10 := v })
  else if reg = "r11" then (some (), { c with r11 := v })
  else if reg = "r12" then (some (), { c with r12 := v })
  else if reg = "r13" then (some (), { c with r13 := v })
  else if reg = "r14" then (some (), { c with r14 := v })
  else if reg = "r15" then (some (), { c with r15 := v })
  else if reg = "rip" then (some (), { c with rip := v })
  else (none, c)

/-- `CpuContext::format_register` for x86-64: `Register = u64`, 16 digits. -/
def CONTEXT_AMD64.format_register (c : CONTEXT_AMD64) (reg : String) : Option String :=
  (c.get_register_always reg).map (formatHex 16)

/-- The register-name dispatch shared by `CONTEXT_ARM64` and
`CONTEXT_ARM64_OLD` `get_register_always` (the two source bodies are
identical), over the record's `iregs`/`pc`. -/
def arm64GetRegisterAlways (iregs : List Nat) (pc : Nat) (reg : String) : Option Nat :=
  if reg = "x0" then some (iregs.getD 0 0)
  else if reg = "x1" then some (iregs.getD 1 0)
  else if reg = "x2" then some (iregs.getD 2 0)
  else if reg = "x3" then some (iregs.getD 3 0)
  else if reg = "x4" then some (iregs.getD 4 0)
  else if reg = "x5" then some (iregs.getD 5 0)
  else if reg = "x6" then some (iregs.getD 6 0)
  else if reg = "x7" then some (iregs.getD 7 0)
  else if reg = "x8" then some (iregs.getD 8 0)
  else if reg = "x9" then some (iregs.getD 9 0)
  else if reg = "x10" then some (iregs.getD 10 0)
  else if reg = "x11" then some (iregs.getD 11 0)
  else if reg = "x12" then some (iregs.getD 12 0)
  else if reg = "x13" then some (iregs.getD 13 0)
  else if reg = "x14" then some (iregs.getD 14 0)
  else if reg = "x15" then some (iregs.getD 15 0)
  else if reg = "x16" then some (iregs.getD 16 0)
  else if reg = "x17" then some (iregs.getD 17 0)
  else if reg = "x18" then some (iregs.getD 18 0)
  else if reg = "x19" then some (iregs.getD 19 0)
  else if reg = "x20" then some (iregs.getD 20 0)
  else if reg = "x21" then some (iregs.getD 21 0)
  else if reg = "x22" then some (iregs.getD 22 0)
  else if reg = "x23" then some (iregs.getD 23 0)
  else if reg = "x24" then some (iregs.getD 24 0)
  else if reg = "x25" then some (iregs.getD 25 0)
  else if reg = "x26" then some (iregs.getD 26 0)
  else if reg = "x27" then some (iregs.getD 27 0)
  else if reg = "x28" then some (iregs.getD 28 0)
  else if reg = "x29" then some (iregs.getD 29 0)
  else if reg = "x30" then some (iregs.getD 30 0)
  else if reg = "x31" then some (iregs.getD 31 0)
  else if reg = "pc" then some pc
  else if reg = "fp" then some (iregs.getD Arm64RegisterNumbers.framePointer 0)
  else if reg = "sp" then some (iregs.getD Arm64RegisterNumbers.stackPointer 0)
  else none

/-- The shared aarch64 `set_register` dispatch: `(return value, iregs, pc)`
after the call. -/
def arm64SetRegister (iregs : List Nat) (pc : Nat) (reg : String) (v : Nat) :
    Option Unit × List Nat × Nat :=
  if reg = "x0" then (some (), iregs.set 0 v, pc)
  else if reg = "x1" then (some (), iregs.set 1 v, pc)
  else if reg = "x2" then (some (), iregs.set 2 v, pc)
  else if reg = "x3" then (some (), iregs.set 3 v, pc)
  else if reg = "x4" then (some (), iregs.set 4 v, pc)
  else if reg = "x5" then (some (), iregs.set 5 v, pc)
  else if reg = "x6" then (some (), iregs.set 6 v, pc)
  else if reg = "x7" then (some (), iregs.set 7 v, pc)
  else if reg = "x8" then (some (), iregs.set 8 v, pc)
  else if reg = "x9" then (some (), iregs.set 9 v, pc)
  else if reg = "x10" then (some (), iregs.set 10 v, pc)
  else if reg = "x11" then (some (), iregs.set 11 v, pc)
  else if reg = "x12" then (some (), iregs.set 12 v, pc)
  else if reg = "x13" then (some (), iregs.set 13 v, pc)
  else if reg = "x14" then (some (), iregs.set 14 v, pc)
  else if reg = "x15" then (some (), iregs.set 15 v, pc)
  else if reg = "x16" then (some (), iregs.set 16 v, pc)
  else if reg = "x17" then (some (), iregs.set 17 v, pc)
  else if reg = "x18" then (some (), iregs.set 18 v, pc)
  else if reg = "x19" then (some (), iregs.set 19 v, pc)
  else if reg = "x20" then (some (), iregs.set 20 v, pc)
  else if reg = "x21" then (some (), iregs.set 21 v, pc)
  else if reg = "x22" then (some (), iregs.set 22 v, pc)
  else if reg = "x23" then (some (), iregs.set 23 v, pc)
  else if reg = "x24" then (some (), iregs.set 24 v, pc)
  else if reg = "x25" then (some (), iregs.set 25 v, pc)
  else if reg = "x26" then (some (), iregs.set 26 v, pc)
  else if reg = "x27" then (some (), iregs.set 27 v, pc)
  else if reg = "x28" then (some (), iregs.set 28 v, pc)
  else if reg = "x29" then (some (), iregs.set 29 v, pc)
  else if reg = "x30" then (some (), iregs.set 30 v, pc)
  else if reg = "x31" then (some (), iregs.set 31 v, pc)
  else if reg = "pc" then (some (), iregs, v)
  else if reg = "fp" then (some (), iregs.set Arm64RegisterNumbers.framePointer v, pc)
  else if reg = "sp" then (some (), iregs.set Arm64RegisterNumbers.stackPointer v, pc)
  else (none, iregs, pc)

/-- `CpuContext::get_register_always` for `CONTEXT_ARM64`. -/
def CONTEXT_ARM64.get_register_always (c : CONTEXT_ARM64) (reg : String) : Option Nat :=
  arm64GetRegisterAlways c.iregs c.pc reg

/-- `CpuContext::set_register` for `CONTEXT_ARM64`. -/
def CONTEXT_ARM64.set_register (c : CONTEXT_ARM64) (reg : String) (v : Nat) :
    Option Unit × CONTEXT_ARM64 :=
  let r := arm64SetRegister c.iregs c.pc reg v
  (r.1, { c with iregs := r.2.1, pc := r.2.2 })

/-- `CpuContext::format_register` for `CONTEXT_ARM64` (`Register = u64`). -/
def CONTEXT_ARM64.format_register (c : CONTEXT_ARM64) (reg : String) : Option String :=
  (c.get_register_always reg).map (formatHex 16)

/-- `CpuContext::get_register_always` for `CONTEXT_ARM64_OLD`. -/
def CONTEXT_ARM64_OLD.get_register_always (c : CONTEXT_ARM64_OLD) (reg : String) :
    Option Nat :=
  arm64GetRegisterAlways c.iregs c.pc reg

/-- `CpuContext::set_register` for `CONTEXT_ARM64_OLD`. -/
def CONTEXT_ARM64_OLD.set_register (c : CONTEXT_ARM64_OLD) (reg : String) (v : Nat) :
    Option Unit × CONTEXT_ARM64_OLD :=
  let r := arm64SetRegister c.iregs c.pc reg v
  (r.1, { c with iregs := r.2.1, pc := r.2.2 })

/-- `CpuContext::format_register` for `CONTEXT_ARM64_OLD` (`Register = u64`). -/
def CONTEXT_ARM64_OLD.format_register (c : CONTEXT_ARM64_OLD) (reg : String) :
    Option String :=
  (c.get_register_always reg).map (formatHex 16)

/-- The CPU-specific context structure (`enum MinidumpRawContext`). -/
inductive MinidumpRawContext where
  | X86 (ctx : CONTEXT_X86)
  | Ppc (ctx : CONTEXT_PPC)
  | Ppc64 (ctx : CONTEXT_PPC64)
  | Amd64 (ctx : CONTEXT_AMD64)
  | Sparc (ctx : CONTEXT_SPARC)
  | Arm (ctx : CONTEXT_ARM)
  | Arm64 (ctx : CONTEXT_ARM64)
  | OldArm64 (ctx : CONTEXT_ARM64_OLD)
  | Mips (ctx : CONTEXT_MIPS)
  deriving DecidableEq, Repr

/-- `enum MinidumpContextValidity`: which registers are valid. -/
inductive MinidumpContextValidity where
  | All
  | Some (which : List String)
  deriving DecidableEq, Repr

/-- `struct MinidumpContext`. -/
structure MinidumpContext where
  raw : MinidumpRawContext
  valid : MinidumpContextValidity
  deriving DecidableEq, Repr

/-- `enum ContextError`. -/
inductive ContextError where
  | ReadFailure
  | UnknownCpuContext
  deriving DecidableEq, Repr

/-- `MinidumpContext::from_raw`. -/
def MinidumpContext.from_raw (raw : MinidumpRawContext) : MinidumpContext :=
  { raw := raw, valid := MinidumpContextValidity.All }

/-- `MinidumpContext::get_instruction_pointer`. -/
def MinidumpContext.get_instruction_pointer (self : MinidumpContext) : Nat :=
  match self.raw with
  | .Amd64 ctx => ctx.rip
  | .Arm ctx => ctx.iregs.getD ArmRegisterNumbers.programCounter 0
  | .Arm64 ctx => ctx.pc
  | .OldArm64 ctx => ctx.pc
  | .Ppc ctx => ctx.srr0
  | .Ppc64 ctx => ctx.srr0
  | .Sparc ctx => ctx.pc
  | .X86 ctx => ctx.eip
  | .Mips ctx => ctx.epc

/-- `MinidumpContext::get_stack_pointer`. -/
def MinidumpContext.get_stack_pointer (self : MinidumpContext) : Nat :=
  match self.raw with
  | .Amd64 ctx => ctx.rsp
  | .Arm ctx => ctx.iregs.getD ArmRegisterNumbers.stackPointer 0
  | .Arm64 ctx => ctx.iregs.getD Arm64RegisterNumbers.stackPointer 0
  | .OldArm64 ctx => ctx.iregs.getD Arm64RegisterNumbers.stackPointer 0
  | .Ppc ctx => ctx.gpr.getD PpcRegisterNumbers.stackPointer 0
  | .Ppc64 ctx => ctx.gpr.getD Ppc64RegisterNumbers.stackPointer 0
  | .Sparc ctx => ctx.g_r.getD SparcRegisterNumbers.stackPointer 0
  | .X86 ctx => ctx.esp
  | .Mips ctx => ctx.iregs.getD MipsRegisterNumbers.stackPointer 0

/-- `MinidumpContext::format_register`; the `Arm`, `Ppc`, `Ppc64`, `Sparc`
and `Mips` arms are `unimplemented!()` in the source, i.e. they panic,
embedded as `none`. -/
def MinidumpContext.format_register (self : MinidumpContext) (reg : String) :
    Option String :=
  match self.raw with
  | .Amd64 ctx => ctx.format_register reg
  | .Arm _ => none
  | .Arm64 ctx => ctx.format_register reg
  | .OldArm64 ctx => ctx.format_register reg
  | .Ppc _ => none
  | .Ppc64 _ => none
  | .Sparc _ => none
  | .X86 ctx => ctx.format_register reg
  | .Mips _ => none

/-- `MinidumpContext::general_purpose_registers`; the five arms that are
`unimplemented!()` in the source are embedded as `none`. -/
def MinidumpContext.general_purpose_registers (raw : MinidumpRawContext) :
    Option (List String) :=
  match raw with
  | .Amd64 _ => some X86_64_REGS
  | .Arm _ => none
  | .Arm64 _ => some ARM64_REGS
  | .OldArm64 _ => some ARM64_REGS
  | .Ppc _ => none
  | .Ppc64 _ => none
  | .Sparc _ => none
  | .X86 _ => some X86_REGS
  | .Mips _ => none

/-- `get_register_always` of the raw context's `CpuContext` impl; the five
variants without an impl have no such operation (`none` for every name). -/
def MinidumpRawContext.get_register_always (raw : MinidumpRawContext) (reg : String) :
    Option Nat :=
  match raw with
  | .Amd64 ctx => ctx.get_register_always reg
  | .Arm64 ctx => ctx.get_register_always reg
  | .OldArm64 ctx => ctx.get_register_always reg
  | .X86 ctx => ctx.get_register_always reg
  | _ => none

/-- `mem::size_of::<Register>()` of the variant's `CpuContext` impl, in
bytes (4 for x86's `u32`, 8 for the `u64` impls). -/
def MinidumpRawContext.word_size (raw : MinidumpRawContext) : Nat :=
  match raw with
  | .X86 _ => 4
  | _ => 8

/-- Well-formedness of the embedded records: every field fits its Rust
integer type and register arrays have the layout's length. -/
def CONTEXT_X86.Wf (c : CONTEXT_X86) : Prop :=
  c.context_flags < 2 ^ 32 ∧ c.eip < 2 ^ 32 ∧ c.esp < 2 ^ 32 ∧ c.ebp < 2 ^ 32 ∧
    c.ebx < 2 ^ 32 ∧ c.esi < 2 ^ 32 ∧ c.edi < 2 ^ 32 ∧ c.eax < 2 ^ 32 ∧
    c.ecx < 2 ^ 32 ∧ c.edx < 2 ^ 32 ∧ c.eflags < 2 ^ 32

instance (c : CONTEXT_X86) : Decidable c.Wf := by unfold CONTEXT_X86.Wf; infer_instance

def CONTEXT_AMD64.Wf (c : CONTEXT_AMD64) : Prop :=
  c.context_flags < 2 ^ 32 ∧ c.rax < 2 ^ 64 ∧ c.rdx < 2 ^ 64 ∧ c.rcx < 2 ^ 64 ∧
    c.rbx < 2 ^ 64 ∧ c.rsi < 2 ^ 64 ∧ c.rdi < 2 ^ 64 ∧ c.rbp < 2 ^ 64 ∧
    c.rsp < 2 ^ 64 ∧ c.r8 < 2 ^ 64 ∧ c.r9 < 2 ^ 64 ∧ c.r10 < 2 ^ 64 ∧
    c.r11 < 2 ^ 64 ∧ c.r12 < 2 ^ 64 ∧ c.r13 < 2 ^ 64 ∧ c.r14 < 2 ^ 64 ∧
    c.r15 < 2 ^ 64 ∧ c.rip < 2 ^ 64

instance (c : CONTEXT_AMD64) : Decidable c.Wf := by unfold CONTEXT_AMD64.Wf; infer_instance

def CONTEXT_ARM64.Wf (c : CONTEXT_ARM64) : Prop :=
  c.context_flags < 2 ^ 32 ∧ c.iregs.length = 32 ∧ (∀ v ∈ c.iregs, v < 2 ^ 64) ∧
    c.pc < 2 ^ 64 ∧ c.cpsr < 2 ^ 32

instance (c : CONTEXT_ARM64) : Decidable c.Wf := by unfold CONTEXT_ARM64.Wf; infer_instance

def CONTEXT_ARM64_OLD.Wf (c : CONTEXT_ARM64_OLD) : Prop :=
  c.context_flags < 2 ^ 64 ∧ c.iregs.length = 32 ∧ (∀ v ∈ c.iregs, v < 2 ^ 64) ∧
    c.pc < 2 ^ 64 ∧ c.cpsr < 2 ^ 32

instance (c : CONTEXT_ARM64_OLD) : Decidable c.Wf := by
  unfold CONTEXT_ARM64_OLD.Wf; infer_instance

def CONTEXT_ARM.Wf (c : CONTEXT_ARM) : Prop :=
  c.context_flags < 2 ^ 32 ∧ c.iregs.length = 16 ∧ (∀ v ∈ c.iregs, v < 2 ^ 32) ∧
    c.cpsr < 2 ^ 32

instance (c : CONTEXT_ARM) : Decidable c.Wf := by unfold CONTEXT_ARM.Wf; infer_instance

def CONTEXT_PPC.Wf (c : CONTEXT_PPC) : Prop :=
  c.context_flags < 2 ^ 32 ∧ c.srr0 < 2 ^ 32 ∧ c.gpr.length = 32 ∧
    ∀ v ∈ c.gpr, v < 2 ^ 32

instance (c : CONTEXT_PPC) : Decidable c.Wf := by unfold CONTEXT_PPC.Wf; infer_instance

def CONTEXT_PPC64.Wf (c : CONTEXT_PPC64) : Prop :=
  c.context_flags < 2 ^ 64 ∧ c.srr0 < 2 ^ 64 ∧ c.gpr.length = 32 ∧
    ∀ v ∈ c.gpr, v < 2 ^ 64

instance (c : CONTEXT_PPC64) : Decidable c.Wf := by unfold CONTEXT_PPC64.Wf; infer_instance

def CONTEXT_SPARC.Wf (c : CONTEXT_SPARC) : Prop :=
  c.context_flags < 2 ^ 64 ∧ c.pc < 2 ^ 64 ∧ c.g_r.length = 32 ∧
    ∀ v ∈ c.g_r, v < 2 ^ 64

instance (c : CONTEXT_SPARC) : Decidable c.Wf := by unfold CONTEXT_SPARC.Wf; infer_instance

def CONTEXT_MIPS.Wf (c : CONTEXT_MIPS) : Prop :=
  c.context_flags < 2 ^ 32 ∧ c.epc < 2 ^ 64 ∧ c.iregs.length = 32 ∧
    ∀ v ∈ c.iregs, v < 2 ^ 64

instance (c : CONTEXT_MIPS) : Decidable c.Wf := by unfold CONTEXT_MIPS.Wf; infer_instance

/-- Well-formedness of a raw context: its record is well formed. -/
def MinidumpRawContext.Wf : MinidumpRawContext → Prop
  | .X86 c => c.Wf
  | .Ppc c => c.Wf
  | .Ppc64 c => c.Wf
  | .Amd64 c => c.Wf
  | .Sparc c => c.Wf
  | .Arm c => c.Wf
  | .Arm64 c => c.Wf
  | .OldArm64 c => c.Wf
  | .Mips c => c.Wf

instance (raw : MinidumpRawContext) : Decidable raw.Wf := by
  unfold MinidumpRawContext.Wf
  cases raw <;> infer_instance

/-- Byte order of the dump (`scroll::Endian`). -/
inductive Endian where
  | little
  | big
  deriving DecidableEq, Repr

/-- One byte of the input slice (`0` outside the slice; all reads below are
guarded by length checks). -/
def byteAt (bytes : List Nat) (i : Nat) : Nat := bytes.getD i 0

/-- Read a `u16` at `off` in the given byte order. -/
def readU16 (e : Endian) (bytes : List Nat) (off : Nat) : Nat :=
  match e with
  | .little => byteAt bytes off + 2 ^ 8 * byteAt bytes (off + 1)
  | .big => byteAt bytes (off + 1) + 2 ^ 8 * byteAt bytes off

/-- Read a `u32` at `off` in the given byte order. -/
def readU32 (e : Endian) (bytes : List Nat) (off : Nat) : Nat :=
  match e with
  | .little => readU16 .little bytes off + 2 ^ 16 * readU16 .little bytes (off + 2)
  | .big => readU16 .big bytes (off + 2) + 2 ^ 16 * readU16 .big bytes off

/-- Read a `u64` at `off` in the given byte order. -/
def readU64 (e : Endian) (bytes : List Nat) (off : Nat) : Nat :=
  match e with
  | .little => readU32 .little bytes off + 2 ^ 32 * readU32 .little bytes (off + 4)
  | .big => readU32 .big bytes (off + 4) + 2 ^ 32 * readU32 .big bytes off

/-- Modelled from the spec: `mem::size_of::<md::CONTEXT_AMD64>()`
(`format.rs` is not under `src/`); scenario S2 fixes the AMD64 record at
1232 bytes, matching the Breakpad layout the spec requires byte-for-byte. -/
def sizeOfCONTEXT_AMD64 : Nat := 1232

/-- Modelled from the spec: `mem::size_of::<md::CONTEXT_PPC64>()`; the
Breakpad PPC64 record the spec requires (flags, `srr0`/`srr1`, 32 GPRs,
special-purpose registers, float and vector save areas). -/
def sizeOfCONTEXT_PPC64 : Nat := 1168

/-- Modelled from the spec: `mem::size_of::<md::CONTEXT_ARM64_OLD>()`; the
packed Breakpad ARM64-old record (u64 flags, 32 iregs, pc, cpsr, float
save area). -/
def sizeOfCONTEXT_ARM64_OLD : Nat := 796

/-- Modelled from the spec: the remaining per-architecture record sizes
(`format.rs` is not under `src/`), matching the Breakpad layouts; they
gate only whether the flag-dispatched `gread` succeeds. -/
def sizeOfCONTEXT_X86 : Nat := 716

/-- Modelled from the spec: Breakpad ARM-32 record size. -/
def sizeOfCONTEXT_ARM : Nat := 368

/-- Modelled from the spec: Breakpad PPC record size. -/
def sizeOfCONTEXT_PPC : Nat := 1004

/-- Modelled from the spec: Breakpad SPARC record size. -/
def sizeOfCONTEXT_SPARC : Nat := 608

/-- Modelled from the spec: Breakpad MIPS record size. -/
def sizeOfCONTEXT_MIPS : Nat := 600

/-- Modelled from the spec: this fork's ARM64 record size. -/
def sizeOfCONTEXT_ARM64 : Nat := 792

/-- Modelled from the spec: `MD_CONTEXT_CPU_MASK`, the CPU-family bits of a
context flags word (`format.rs` is not under `src/`; the Breakpad value). -/
def CONTEXT_CPU_MASK : Nat := 0xffffff00

/-- Modelled from the spec: the per-architecture CPU flag constants of
`ContextFlagsCpu` (Breakpad values; the spec's §4.4 names the dispatch
targets, `format.rs` carries the numbers). -/
def CONTEXT_X86_FLAG : Nat := 0x10000

/-- Modelled from the spec: `ContextFlagsCpu::CONTEXT_AMD64`. -/
def CONTEXT_AMD64_FLAG : Nat := 0x100000

/-- Modelled from the spec: `ContextFlagsCpu::CONTEXT_ARM`. -/
def CONTEXT_ARM_FLAG : Nat := 0x40000000

/-- Modelled from the spec: `ContextFlagsCpu::CONTEXT_ARM64`. -/
def CONTEXT_ARM64_FLAG : Nat := 0x400000

/-- Modelled from the spec: `ContextFlagsCpu::CONTEXT_ARM64_OLD`. -/
def CONTEXT_ARM64_OLD_FLAG : Nat := 0x80000000

/-- Modelled from the spec: `ContextFlagsCpu::CONTEXT_MIPS`. -/
def CONTEXT_MIPS_FLAG : Nat := 0x40000

/-- Modelled from the spec: `ContextFlagsCpu::CONTEXT_PPC`. -/
def CONTEXT_PPC_FLAG : Nat := 0x20000000

/-- Modelled from the spec: `ContextFlagsCpu::CONTEXT_PPC64`. -/
def CONTEXT_PPC64_FLAG : Nat := 0x1000000

/-- Modelled from the spec: `ContextFlagsCpu::CONTEXT_SPARC`. -/
def CONTEXT_SPARC_FLAG : Nat := 0x10000000

/-- Modelled from the spec: `ContextFlagsCpu::CONTEXT_IA64`. -/
def CONTEXT_IA64_FLAG : Nat := 0x80000

/-- Modelled from the spec: `ContextFlagsCpu::CONTEXT_SHX`. -/
def CONTEXT_SHX_FLAG : Nat := 0xc0

/-- Modelled from the spec: `ContextFlagsCpu::CONTEXT_ALPHA`. -/
def CONTEXT_ALPHA_FLAG : Nat := 0x20000

/-- Modelled from the spec: the union of all declared `ContextFlagsCpu`
bits; `from_bits_truncate` keeps only these. -/
def CONTEXT_FLAGS_KNOWN_BITS : Nat :=
  CONTEXT_X86_FLAG ||| CONTEXT_AMD64_FLAG ||| CONTEXT_ARM_FLAG |||
    CONTEXT_ARM64_FLAG ||| CONTEXT_ARM64_OLD_FLAG ||| CONTEXT_MIPS_FLAG |||
    CONTEXT_PPC_FLAG ||| CONTEXT_PPC64_FLAG ||| CONTEXT_SPARC_FLAG |||
    CONTEXT_IA64_FLAG ||| CONTEXT_SHX_FLAG ||| CONTEXT_ALPHA_FLAG

/-- Modelled from the spec: `ContextFlagsCpu::from_flags`, i.e.
`from_bits_truncate(flags & CONTEXT_CPU_MASK)` — the CPU-family bits of the
flag word that §4.4 dispatches on. -/
def ContextFlagsCpu.from_flags (flags : Nat) : Nat :=
  flags &&& CONTEXT_CPU_MASK &&& CONTEXT_FLAGS_KNOWN_BITS

/-- Modelled from the spec: parse of the AMD64 record at the packed
Breakpad offsets (`p1_home..p6_home` at 0, `context_flags` at 48, GP
registers from 120, `rip` at 248); `gread_with` fails on a short slice. -/
def readCONTEXT_AMD64 (e : Endian) (bytes : List Nat) : Option CONTEXT_AMD64 :=
  if bytes.length < sizeOfCONTEXT_AMD64 then none
  else some
    { context_flags := readU32 e bytes 48
      rax := readU64 e bytes 120
      rcx := readU64 e bytes 128
      rdx := readU64 e bytes 136
      rbx := readU64 e bytes 144
      rsp := readU64 e bytes 152
      rbp := readU64 e bytes 160
      rsi := readU64 e bytes 168
      rdi := readU64 e bytes 176
      r8 := readU64 e bytes 184
      r9 := readU64 e bytes 192
      r10 := readU64 e bytes 200
      r11 := readU64 e bytes 208
      r12 := readU64 e bytes 216
      r13 := readU64 e bytes 224
      r14 := readU64 e bytes 232
      r15 := readU64 e bytes 240
      rip := readU64 e bytes 248 }

/-- Modelled from the spec: parse of the PPC64 record (`u64` flags at 0,
`srr0` at 8, 32 GPRs from 24). -/
def readCONTEXT_PPC64 (e : Endian) (bytes : List Nat) : Option CONTEXT_PPC64 :=
  if bytes.length < sizeOfCONTEXT_PPC64 then none
  else some
    { context_flags := readU64 e bytes 0
      srr0 := readU64 e bytes 8
      gpr := (List.range 32).map (fun i => readU64 e bytes (24 + 8 * i)) }

/-- Modelled from the spec: parse of the packed ARM64-old record (`u64`
flags at 0, 32 iregs from 8, `pc` at 264, `cpsr` at 272). -/
def readCONTEXT_ARM64_OLD (e : Endian) (bytes : List Nat) : Option CONTEXT_ARM64_OLD :=
  if bytes.length < sizeOfCONTEXT_ARM64_OLD then none
  else some
    { context_flags := readU64 e bytes 0
      iregs := (List.range 32).map (fun i => readU64 e bytes (8 + 8 * i))
      pc := readU64 e bytes 264
      cpsr := readU32 e bytes 272 }

/-- Modelled from the spec: parse of the x86 record (flags at 0, GP
registers at the Breakpad offsets 156..200). -/
def readCONTEXT_X86 (e : Endian) (bytes : List Nat) : Option CONTEXT_X86 :=
  if bytes.length < sizeOfCONTEXT_X86 then none
  else some
    { context_flags := readU32 e bytes 0
      edi := readU32 e bytes 156
      esi := readU32 e bytes 160
      ebx := readU32 e bytes 164
      edx := readU32 e bytes 168
      ecx := readU32 e bytes 172
      eax := readU32 e bytes 176
      ebp := readU32 e bytes 180
      eip := readU32 e bytes 184
      eflags := readU32 e bytes 192
      esp := readU32 e bytes 196 }

/-- Modelled from the spec: parse of the PPC record (flags at 0, `srr0` at
4, 32 GPRs from 12). -/
def readCONTEXT_PPC (e : Endian) (bytes : List Nat) : Option CONTEXT_PPC :=
  if bytes.length < sizeOfCONTEXT_PPC then none
  else some
    { context_flags := readU32 e bytes 0
      srr0 := readU32 e bytes 4
      gpr := (List.range 32).map (fun i => readU32 e bytes (12 + 4 * i)) }

/-- Modelled from the spec: parse of the SPARC record (`u64` flags at 0,
32 `g_r` from 8, `pc` at 272). -/
def readCONTEXT_SPARC (e : Endian) (bytes : List Nat) : Option CONTEXT_SPARC :=
  if bytes.length < sizeOfCONTEXT_SPARC then none
  else some
    { context_flags := readU64 e bytes 0
      g_r := (List.range 32).map (fun i => readU64 e bytes (8 + 8 * i))
      pc := readU64 e bytes 272 }

/-- Modelled from the spec: parse of the ARM record (flags at 0, 16 iregs
from 4, `cpsr` at 68). -/
def readCONTEXT_ARM (e : Endian) (bytes : List Nat) : Option CONTEXT_ARM :=
  if bytes.length < sizeOfCONTEXT_ARM then none
  else some
    { context_flags := readU32 e bytes 0
      iregs := (List.range 16).map (fun i => readU32 e bytes (4 + 4 * i))
      cpsr := readU32 e bytes 68 }

/-- Modelled from the spec: parse of the MIPS record (flags at 0, 32 iregs
from 8, `epc` at 312). -/
def readCONTEXT_MIPS (e : Endian) (bytes : List Nat) : Option CONTEXT_MIPS :=
  if bytes.length < sizeOfCONTEXT_MIPS then none
  else some
    { context_flags := readU32 e bytes 0
      iregs := (List.range 32).map (fun i => readU64 e bytes (8 + 8 * i))
      epc := readU64 e bytes 312 }

/-- Modelled from the spec: parse of this fork's ARM64 record (flags at 0,
`cpsr` at 4, 32 iregs from 8, `pc` at 264). -/
def readCONTEXT_ARM64 (e : Endian) (bytes : List Nat) : Option CONTEXT_ARM64 :=
  if bytes.length < sizeOfCONTEXT_ARM64 then none
  else some
    { context_flags := readU32 e bytes 0
      cpsr := readU32 e bytes 4
      iregs := (List.range 32).map (fun i => readU64 e bytes (8 + 8 * i))
      pc := readU64 e bytes 264 }

/-- `MinidumpContext::read`: size-based fast paths for the three records
without a leading `u32` flag word, then dispatch on the CPU-family bits of
the leading flag word, and `UnknownCpuContext` for everything else. -/
def MinidumpContext.read (bytes : List Nat) (endian : Endian) :
    Except ContextError MinidumpContext :=
  if bytes.length = sizeOfCONTEXT_AMD64 then
    match readCONTEXT_AMD64 endian bytes with
    | none => .error .ReadFailure
    | some ctx =>
      if ContextFlagsCpu.from_flags ctx.context_flags ≠ CONTEXT_AMD64_FLAG then
        .error .ReadFailure
      else .ok (MinidumpContext.from_raw (.Amd64 ctx))
  else if bytes.length = sizeOfCONTEXT_PPC64 then
    match readCONTEXT_PPC64 endian bytes with
    | none => .error .ReadFailure
    | some ctx =>
      if ContextFlagsCpu.from_flags (ctx.context_flags % 2 ^ 32) ≠ CONTEXT_PPC64_FLAG then
        .error .ReadFailure
      else .ok (MinidumpContext.from_raw (.Ppc64 ctx))
  else if bytes.length = sizeOfCONTEXT_ARM64_OLD then
    match readCONTEXT_ARM64_OLD endian bytes with
    | none => .error .ReadFailure
    | some ctx =>
      if ContextFlagsCpu.from_flags (ctx.context_flags % 2 ^ 32) ≠ CONTEXT_ARM64_OLD_FLAG then
        .error .ReadFailure
      else .ok (MinidumpContext.from_raw (.OldArm64 ctx))
  else if bytes.length < 4 then .error .ReadFailure
  else
    let flags := readU32 endian bytes 0
    if ContextFlagsCpu.from_flags flags = CONTEXT_X86_FLAG then
      match readCONTEXT_X86 endian bytes with
      | none => .error .ReadFailure
      | some ctx => .ok (MinidumpContext.from_raw (.X86 ctx))
    else if ContextFlagsCpu.from_flags flags = CONTEXT_PPC_FLAG then
      match readCONTEXT_PPC endian bytes with
      | none => .error .ReadFailure
      | some ctx => .ok (MinidumpContext.from_raw (.Ppc ctx))
    else if ContextFlagsCpu.from_flags flags = CONTEXT_SPARC_FLAG then
      match readCONTEXT_SPARC endian bytes with
      | none => .error .ReadFailure
      | some ctx => .ok (MinidumpContext.from_raw (.Sparc ctx))
    else if ContextFlagsCpu.from_flags flags = CONTEXT_ARM_FLAG then
      match readCONTEXT_ARM endian bytes with
      | none => .error .ReadFailure
      | some ctx => .ok (MinidumpContext.from_raw (.Arm ctx))
    else if ContextFlagsCpu.from_flags flags = CONTEXT_MIPS_FLAG then
      match readCONTEXT_MIPS endian bytes with
      | none => .error .ReadFailure
      | some ctx => .ok (MinidumpContext.from_raw (.Mips ctx))
    else if ContextFlagsCpu.from_flags flags = CONTEXT_ARM64_FLAG then
      match readCONTEXT_ARM64 endian bytes with
      | none => .error .ReadFailure
      | some ctx => .ok (MinidumpContext.from_raw (.Arm64 ctx))
    else .error .UnknownCpuContext

/-- Scenario S2: a 1232-byte little-endian AMD64 context record with
`context_flags = 0x10003F` (bytes 48..51) and `rip = 0x7ff712345678`
(bytes 248..255), all other bytes zero. -/
def amd64ScenarioBytes : List Nat :=
  ((((((((((List.replicate 1232 0).set 48 0x3F).set 49 0x00).set 50 0x10).set 51
    0x00).set 248 0x78).set 249 0x56).set 250 0x34).set 251 0x12).set 252
    0xF7).set 253 0x7F

/-- The record scenario S2 decodes to. -/
def amd64ScenarioCtx : CONTEXT_AMD64 :=
  { context_flags := 0x10003F
    rax := 0, rdx := 0, rcx := 0, rbx := 0, rsi := 0, rdi := 0, rbp := 0
    rsp := 0, r8 := 0, r9 := 0, r10 := 0, r11 := 0, r12 := 0, r13 := 0
    r14 := 0, r15 := 0
    rip := 0x7ff712345678 }

/-- Scenario S6: a 200-byte blob whose leading little-endian `u32` is
`context_flags = 0xDEAD0000`, the rest zero. -/
def unknownScenarioBytes : List Nat :=
  (((List.replicate 200 0).set 2 0xAD).set 3 0xDE)

/-- The full register-name alphabet of the aarch64 `CpuContext` impls:
the display list plus the `fp`/`sp` aliases accepted by
`get_register_always`/`set_register`. -/
def ARM64_ALPHABET : List String := ARM64_REGS ++ ["fp", "sp"]

/-- An all-zero ARM-32 record, used for concrete instances. -/
def armScenarioCtx : CONTEXT_ARM :=
  { context_flags := 0x40000007, iregs := List.replicate 16 0, cpsr := 0 }

/-- An all-zero x86 record, used for concrete instances. -/
def x86ScenarioCtx : CONTEXT_X86 :=
  { context_flags := 0x10007, eip := 0, esp := 0, ebp := 0, ebx := 0, esi := 0
    edi := 0, eax := 0, ecx := 0, edx := 0, eflags := 0 }

/-- Modelled from the spec: the architecture's designated instruction
pointer register (§4.4: "`instruction_pointer()` … a 64-bit widening of
the corresponding architecture register, with ARM-32 reading
`iregs[15]`"). -/
def specInstructionPointer : MinidumpRawContext → Nat
  | .Amd64 c => c.rip
  | .Arm c => c.iregs.getD 15 0
  | .Arm64 c => c.pc
  | .OldArm64 c => c.pc
  | .Ppc c => c.srr0
  | .Ppc64 c => c.srr0
  | .Sparc c => c.pc
  | .X86 c => c.eip
  | .Mips c => c.epc

/-- Modelled from the spec: the architecture's designated stack pointer
register (ARM-32 reads `iregs[13]`; the other architectures read their
named stack-pointer slots). -/
def specStackPointer : MinidumpRawContext → Nat
  | .Amd64 c => c.rsp
  | .Arm c => c.iregs.getD 13 0
  | .Arm64 c => c.iregs.getD 31 0
  | .OldArm64 c => c.iregs.getD 31 0
  | .Ppc c => c.gpr.getD 1 0
  | .Ppc64 c => c.gpr.getD 1 0
  | .Sparc c => c.g_r.getD 14 0
  | .X86 c => c.esp
  | .Mips c => c.iregs.getD 29 0

end MinidumpCtx

namespace RangeMapSafe

lemma satSucc_ge (n : Nat) (h : n < 2 ^ 64) : n ≤ satSucc n := by
  unfold satSucc
  omega

/-- Main invariant of the scan loop: if the pending input is sorted, its
bounds are `u64`-sized, the accumulator ends are bounded, every accumulator
start is at most every pending start, and the accumulator (held in reverse)
satisfies the gap chain and the start monotonicity, then the final entry
list satisfies the gap chain and start monotonicity in iteration order. -/
lemma scanRev_invariant {V : Type} [DecidableEq V] :
    ∀ (pending acc : List (Entry V)) (ws : List (Warn V)),
      pending.Pairwise entryLE →
      (∀ e ∈ pending, e.1.start < 2 ^ 64 ∧ e.1.end_ < 2 ^ 64) →
      (∀ e ∈ acc, e.1.end_ < 2 ^ 64) →
      (∀ p ∈ pending, ∀ e ∈ acc, e.1.start ≤ p.1.start) →
      acc.Chain' (flip gapRel) →
      acc.Pairwise (flip startLE) →
      ((scanRev pending acc ws).1.Chain' gapRel ∧
        (scanRev pending acc ws).1.Pairwise startLE)
  | [], acc, ws, _, _, _, _, hchain, hpair => by
    constructor
    · simpa [scanRev] using List.chain'_reverse.mpr hchain
    · simpa [scanRev, startLE] using List.pairwise_reverse.mpr hpair
  | (r, v) :: rest, [], ws, hsorted, hbdd, _, _, _, _ => by
    have hsorted' := (List.pairwise_cons.mp hsorted).2
    have hhead := (List.pairwise_cons.mp hsorted).1
    refine scanRev_invariant rest [(r, v)] ws hsorted'
      (fun e he => hbdd e (List.mem_cons_of_mem _ he))
      (fun e he => by
        rcases List.mem_singleton.mp he with rfl
        exact (hbdd (r, v) (List.mem_cons_self _ _)).2)
      (fun p hp e he => by
        rcases List.mem_singleton.mp he with rfl
        rcases hhead p hp with h | ⟨h, _⟩
        · exact Nat.le_of_lt h
        · exact Nat.le_of_eq h)
      (List.chain'_singleton _) (List.pairwise_singleton _ _)
  | (r, v) :: rest, (lr, lv) :: acc, ws, hsorted, hbdd, haccb, hpend, hchain, hpair => by
    have hsorted' := (List.pairwise_cons.mp hsorted).2
    have hhead := (List.pairwise_cons.mp hsorted).1
    have hbdd' : ∀ e ∈ rest, e.1.start < 2 ^ 64 ∧ e.1.end_ < 2 ^ 64 :=
      fun e he => hbdd e (List.mem_cons_of_mem _ he)
    have hrbdd := hbdd (r, v) (List.mem_cons_self _ _)
    have hpend' : ∀ p ∈ rest, ∀ e ∈ (lr, lv) :: acc, e.1.start ≤ p.1.start :=
      fun p hp e he => hpend p (List.mem_cons_of_mem _ hp) e he
    unfold scanRev
    by_cases h1 : r.start ≤ lr.end_ ∧ v ≠ lv
    · rw [if_pos h1]
      exact scanRev_invariant rest ((lr, lv) :: acc) _ hsorted' hbdd' haccb hpend' hchain hpair
    · rw [if_neg h1]
      by_cases h2 : r.start ≤ satSucc lr.end_ ∧ v = lv
      · rw [if_pos h2]
        -- extend: the last range's end grows, its start is unchanged
        have hchain2 : ((⟨lr.start, max r.end_ lr.end_⟩, lv) :: acc).Chain' (flip gapRel) := by
          cases acc with
          | nil => exact List.chain'_singleton _
          | cons z t =>
            have := List.chain'_cons.mp hchain
            exact List.chain'_cons.mpr ⟨this.1, this.2⟩
        have hpair2 : ((⟨lr.start, max r.end_ lr.end_⟩, lv) :: acc).Pairwise (flip startLE) := by
          have := List.pairwise_cons.mp hpair
          exact List.pairwise_cons.mpr ⟨this.1, this.2⟩
        refine scanRev_invariant rest _ ws hsorted' hbdd'
          (fun e he => by
            rcases List.mem_cons.mp he with rfl | he
            · have := haccb (lr, lv) (List.mem_cons_self _ _)
              simpa using Nat.max_lt.mpr ⟨hrbdd.2, this⟩
            · exact haccb e (List.mem_cons_of_mem _ he))
          (fun p hp e he => by
            rcases List.mem_cons.mp he with rfl | he
            · exact hpend p (List.mem_cons_of_mem _ hp) (lr, lv) (List.mem_cons_self _ _)
            · exact hpend p (List.mem_cons_of_mem _ hp) e (List.mem_cons_of_mem _ he))
          hchain2 hpair2
      · rw [if_neg h2]
        -- push: the gap to the previous last entry is strict
        have hgap : lr.end_ < r.start := by
          by_cases hv : v = lv
          · have hns : ¬ r.start ≤ satSucc lr.end_ := fun hle => h2 ⟨hle, hv⟩
            have := satSucc_ge lr.end_ (haccb (lr, lv) (List.mem_cons_self _ _))
            omega
          · have : ¬ r.start ≤ lr.end_ := fun hle => h1 ⟨hle, hv⟩
            omega
        have hchain2 : ((r, v) :: (lr, lv) :: acc).Chain' (flip gapRel) :=
          List.chain'_cons.mpr ⟨hgap, hchain⟩
        have hpair2 : ((r, v) :: (lr, lv) :: acc).Pairwise (flip startLE) :=
          List.pairwise_cons.mpr
            ⟨fun e he => hpend (r, v) (List.mem_cons_self _ _) e he, hpair⟩
        refine scanRev_invariant rest _ ws hsorted' hbdd'
          (fun e he => by
            rcases List.mem_cons.mp he with rfl | he
            · exact hrbdd.2
            · exact haccb e he)
          (fun p hp e he => by
            rcases List.mem_cons.mp he with rfl | he
            · rcases hhead p hp with h | ⟨h, _⟩
              · exact Nat.le_of_lt h
              · exact Nat.le_of_eq h
            · exact hpend p (List.mem_cons_of_mem _ hp) e he)
          hchain2 hpair2

/-- From the adjacent gap chain and start monotonicity, any earlier entry
ends strictly before any later entry starts. -/
lemma pairwise_gap_of_chain {V : Type} :
    ∀ (l : List (Entry V)), l.Chain' gapRel → l.Pairwise startLE → l.Pairwise gapRel
  | [], _, _ => List.Pairwise.nil
  | [_], _, _ => List.pairwise_singleton _ _
  | x :: y :: t, hchain, hpair => by
    have hc := List.chain'_cons.mp hchain
    have hp := List.pairwise_cons.mp hpair
    refine List.pairwise_cons.mpr ⟨?_, pairwise_gap_of_chain (y :: t) hc.2 hp.2⟩
    intro z hz
    rcases List.mem_cons.mp hz with rfl | hz
    · exact hc.1
    · have hyz : y.1.start ≤ z.1.start := (List.pairwise_cons.mp hp.2).1 z hz
      exact Nat.lt_of_lt_of_le hc.1 hyz

lemma countP_le_one_of_pairwise {V : Type} (p : Entry V → Bool) :
    ∀ (l : List (Entry V)), l.Pairwise (fun a b => ¬(p a = true ∧ p b = true)) →
      l.countP p ≤ 1
  | [], _ => by simp
  | a :: l, hp => by
    have h := List.pairwise_cons.mp hp
    by_cases ha : p a = true
    · have hzero : l.countP p = 0 := by
        apply List.countP_eq_zero.mpr
        intro b hb
        intro hbtrue
        exact h.1 b hb ⟨ha, hbtrue⟩
      simp [List.countP_cons, ha, hzero]
    · have := countP_le_one_of_pairwise p l h.2
      simp [List.countP_cons, ha]
      omega

/-- C1. For every input list of `u64` `(range, value)` pairs, the map built by
`into_rangemap_safe` is sorted and pairwise disjoint: adjacent entries `a, b`
in iteration order satisfy `a.end < b.start`, any two distinct entries have
disjoint ranges, and every address is contained in at most one entry. -/
theorem c1_rangemap_sorted_disjoint {V : Type} [DecidableEq V]
    (input : List (Entry V))
    (hbdd : ∀ e ∈ input, e.1.start < 2 ^ 64 ∧ e.1.end_ < 2 ^ 64) :
    (into_rangemap_safe input).Chain' gapRel ∧
    (into_rangemap_safe input).Pairwise entriesDisjoint ∧
    ∀ addr : Nat,
      (into_rangemap_safe input).countP (fun e => decide (containsAddr e addr)) ≤ 1 := by
  have hsorted : (sortEntries input).Pairwise entryLE :=
    List.sorted_insertionSort entryLE input
  have hbdd' : ∀ e ∈ sortEntries input, e.1.start < 2 ^ 64 ∧ e.1.end_ < 2 ^ 64 := by
    intro e he
    exact hbdd e ((List.perm_insertionSort entryLE input).mem_iff.mp he)
  have hmain := scanRev_invariant (sortEntries input) [] [] hsorted hbdd'
    (by simp) (by simp) List.chain'_nil List.Pairwise.nil
  have hchain : (into_rangemap_safe input).Chain' gapRel := hmain.1
  have hstarts : (into_rangemap_safe input).Pairwise startLE := hmain.2
  have hgap : (into_rangemap_safe input).Pairwise gapRel :=
    pairwise_gap_of_chain _ hchain hstarts
  have hdisj : (into_rangemap_safe input).Pairwise entriesDisjoint := by
    refine hgap.imp ?_
    intro a b hab addr ⟨ha, hb⟩
    unfold gapRel at hab
    unfold containsAddr at ha hb
    omega
  refine ⟨hchain, hdisj, ?_⟩
  intro addr
  refine countP_le_one_of_pairwise _ _ (hdisj.imp ?_)
  intro a b hab ⟨ha, hb⟩
  exact hab addr ⟨of_decide_eq_true ha, of_decide_eq_true hb⟩

/-- Closed witness for C1 at the overlapping-modules scenario. -/
theorem c1_rangemap_sorted_disjoint_witness :
    (∀ e ∈ ([((⟨0x1000, 0x1FFF⟩ : Range), "A"), (⟨0x1800, 0x28FF⟩, "B"),
        (⟨0x2900, 0x3000⟩, "A")] : List (Entry String)),
        e.1.start < 2 ^ 64 ∧ e.1.end_ < 2 ^ 64) ∧
    ((into_rangemap_safe [((⟨0x1000, 0x1FFF⟩ : Range), "A"), (⟨0x1800, 0x28FF⟩, "B"),
        (⟨0x2900, 0x3000⟩, "A")]).Chain' gapRel ∧
      (into_rangemap_safe [((⟨0x1000, 0x1FFF⟩ : Range), "A"), (⟨0x1800, 0x28FF⟩, "B"),
        (⟨0x2900, 0x3000⟩, "A")]).Pairwise entriesDisjoint ∧
      ∀ addr : Nat,
        (into_rangemap_safe [((⟨0x1000, 0x1FFF⟩ : Range), "A"), (⟨0x1800, 0x28FF⟩, "B"),
          (⟨0x2900, 0x3000⟩, "A")]).countP (fun e => decide (containsAddr e addr)) ≤ 1) :=
  ⟨by decide, c1_rangemap_sorted_disjoint _ (by decide)⟩

/-- C2. A conflict (next sorted entry starts at or before the last accepted
entry's end with a different value) logs exactly one warning carrying both
entries and drops the next entry, keeping the accepted one; on the
overlapping-modules input `[(0x1000,0x1FFF)→A, (0x1800,0x28FF)→B,
(0x2900,0x3000)→A]` the output is exactly those two A-entries with B dropped
and a single warning logged. -/
theorem c2_conflict_drops_and_warns :
    (∀ (V : Type) (inst : DecidableEq V) (lr r : Range) (lv v : V)
        (acc : List (Entry V)) (ws : List (Warn V)) (rest : List (Entry V)),
      r.start ≤ lr.end_ → v ≠ lv →
        scanRev ((r, v) :: rest) ((lr, lv) :: acc) ws =
          scanRev rest ((lr, lv) :: acc) (ws ++ [((lr, lv), (r, v))])) ∧
    into_rangemap_safe_w [((⟨0x1000, 0x1FFF⟩ : Range), "A"), (⟨0x1800, 0x28FF⟩, "B"),
        (⟨0x2900, 0x3000⟩, "A")] =
      ([(⟨0x1000, 0x1FFF⟩, "A"), (⟨0x2900, 0x3000⟩, "A")],
        [((⟨0x1000, 0x1FFF⟩, "A"), (⟨0x1800, 0x28FF⟩, "B"))]) := by
  constructor
  · intro V inst lr r lv v acc ws rest hle hne
    simp only [scanRev]
    rw [if_pos ⟨hle, hne⟩]
  · decide

/-- Closed witness for C2: the conflict step at concrete data. -/
theorem c2_conflict_drops_and_warns_witness :
    ((0x1800 : Nat) ≤ 0x1FFF ∧ "B" ≠ "A") ∧
      scanRev [((⟨0x1800, 0x28FF⟩ : Range), "B")] [(⟨0x1000, 0x1FFF⟩, "A")] [] =
        scanRev ([] : List (Entry String)) [(⟨0x1000, 0x1FFF⟩, "A")]
          ([] ++ [((⟨0x1000, 0x1FFF⟩, "A"), (⟨0x1800, 0x28FF⟩, "B"))]) :=
  ⟨⟨by decide, by decide⟩,
    c2_conflict_drops_and_warns.1 String inferInstance ⟨0x1000, 0x1FFF⟩ ⟨0x1800, 0x28FF⟩
      "A" "B" [] [] [] (by decide) (by decide)⟩

/-- C3. When the next sorted entry starts at or before `last.end + 1` (below
the `u64` boundary) and carries the same value, the builder extends the last
entry to `max(last.end, next.end)` instead of pushing a new one; the
contiguous same-value inputs `[(0x1000,0x1FFF)→M, (0x2000,0x2FFF)→M]` yield
the single entry `(0x1000,0x2FFF)→M`. -/
theorem c3_same_value_merge :
    (∀ (V : Type) (inst : DecidableEq V) (lr r : Range) (lv v : V)
        (acc : List (Entry V)) (ws : List (Warn V)) (rest : List (Entry V)),
      lr.end_ + 1 < 2 ^ 64 → r.start ≤ lr.end_ + 1 → v = lv →
        scanRev ((r, v) :: rest) ((lr, lv) :: acc) ws =
          scanRev rest ((⟨lr.start, max r.end_ lr.end_⟩, lv) :: acc) ws) ∧
    into_rangemap_safe [((⟨0x1000, 0x1FFF⟩ : Range), "M"), (⟨0x2000, 0x2FFF⟩, "M")] =
      [(⟨0x1000, 0x2FFF⟩, "M")] := by
  constructor
  · intro V inst lr r lv v acc ws rest hlt hle heq
    simp only [scanRev]
    rw [if_neg (by simp [heq]), if_pos ⟨by unfold satSucc; omega, heq⟩]
  · decide

/-- Closed witness for C3: the merge step at the contiguous same-value data. -/
theorem c3_same_value_merge_witness :
    ((0x1FFF : Nat) + 1 < 2 ^ 64 ∧ (0x2000 : Nat) ≤ 0x1FFF + 1) ∧
      scanRev [((⟨0x2000, 0x2FFF⟩ : Range), "M")] [(⟨0x1000, 0x1FFF⟩, "M")] [] =
        scanRev ([] : List (Entry String))
          [(⟨0x1000, max 0x2FFF 0x1FFF⟩, "M")] [] :=
  ⟨⟨by decide, by decide⟩,
    c3_same_value_merge.1 String inferInstance ⟨0x1000, 0x1FFF⟩ ⟨0x2000, 0x2FFF⟩
      "M" "M" [] [] [] (by decide) (by decide) rfl⟩

/-- C5. The merge threshold `last.end + 1` is computed with saturating
arithmetic: at `last.end = 2^64 - 1` it evaluates to `2^64 - 1` without
wrapping, so an equal-valued following `u64` entry still merges. -/
theorem c5_saturating_merge_at_boundary :
    satSucc (2 ^ 64 - 1) = 2 ^ 64 - 1 ∧
    ∀ (V : Type) (inst : DecidableEq V) (lr r : Range) (lv v : V)
        (acc : List (Entry V)) (ws : List (Warn V)) (rest : List (Entry V)),
      lr.end_ = 2 ^ 64 - 1 → r.start < 2 ^ 64 → v = lv →
        scanRev ((r, v) :: rest) ((lr, lv) :: acc) ws =
          scanRev rest ((⟨lr.start, max r.end_ lr.end_⟩, lv) :: acc) ws := by
  constructor
  · decide
  · intro V inst lr r lv v acc ws rest hend hstart heq
    simp only [scanRev]
    rw [if_neg (by simp [heq]), if_pos ⟨by unfold satSucc; omega, heq⟩]

lemma entryLE_refl_of_eq {V : Type} {a b : Entry V} (h : a.1 = b.1) : entryLE a b := by
  unfold entryLE leRange
  rw [h]
  exact Or.inr ⟨rfl, Nat.le_refl _⟩

lemma filter_orderedInsert {V : Type} [DecidableEq V] (rng : Range) (a : Entry V) :
    ∀ l : List (Entry V),
      (List.orderedInsert entryLE a l).filter (fun e => decide (e.1 = rng)) =
        if a.1 = rng then a :: l.filter (fun e => decide (e.1 = rng))
        else l.filter (fun e => decide (e.1 = rng))
  | [] => by
    by_cases h : a.1 = rng <;> simp [List.orderedInsert, h]
  | b :: t => by
    simp only [List.orderedInsert]
    by_cases hr : entryLE a b
    · rw [if_pos hr]
      by_cases h : a.1 = rng <;> simp [List.filter_cons, h]
    · rw [if_neg hr]
      by_cases haq : a.1 = rng
      · have hbq : ¬(b.1 = rng) := by
          intro hb
          exact hr (entryLE_refl_of_eq (haq.trans hb.symm))
        simp [List.filter_cons, haq, hbq, filter_orderedInsert rng a t]
      · by_cases hbq : b.1 = rng <;>
          simp [List.filter_cons, haq, hbq, filter_orderedInsert rng a t]

lemma filter_sortEntries {V : Type} [DecidableEq V] (rng : Range) :
    ∀ l : List (Entry V),
      (sortEntries l).filter (fun e => decide (e.1 = rng)) =
        l.filter (fun e => decide (e.1 = rng))
  | [] => rfl
  | a :: t => by
    show (List.orderedInsert entryLE a (sortEntries t)).filter _ = _
    rw [filter_orderedInsert]
    by_cases h : a.1 = rng <;>
      simp [List.filter_cons, h, filter_sortEntries rng t]

/-- C4 counterexample: two input pairs share the start `0` but the
later-arriving pair has the smaller end, so it is sorted — and scanned —
first, and it wins the conflict; the earlier pair `((0,10),"A")` is
dropped, contradicting the claim that the earlier pair wins regardless of
the ranges' ends. -/
theorem c4_counterexample :
    sortEntries [((⟨0, 10⟩ : Range), "A"), (⟨0, 5⟩, "B")] =
        [(⟨0, 5⟩, "B"), (⟨0, 10⟩, "A")] ∧
      into_rangemap_safe [((⟨0, 10⟩ : Range), "A"), (⟨0, 5⟩, "B")] =
        [(⟨0, 5⟩, "B")] := by
  constructor <;> decide

/-- C4 amended: step 1 sorts the materialised input by the whole range —
`(start, end)` lexicographically — ascending, and the sort is stable on
insertion order only for entries with equal `(start, end)` keys: the output
is sorted in the lexicographic order, is a permutation of the input, and
entries with any fixed range key keep their input order. -/
theorem c4_sort_lexicographic_stable {V : Type} [DecidableEq V]
    (input : List (Entry V)) :
    (sortEntries input).Pairwise entryLE ∧
    List.Perm (sortEntries input) input ∧
    ∀ rng : Range,
      (sortEntries input).filter (fun e => decide (e.1 = rng)) =
        input.filter (fun e => decide (e.1 = rng)) :=
  ⟨List.sorted_insertionSort entryLE input,
    List.perm_insertionSort entryLE input,
    fun rng => filter_sortEntries rng input⟩

/-- Closed witness for C4 (amended) at the counterexample input. -/
theorem c4_sort_lexicographic_stable_witness :
    (sortEntries [((⟨0, 10⟩ : Range), "A"), (⟨0, 5⟩, "B")]).Pairwise entryLE ∧
    List.Perm (sortEntries [((⟨0, 10⟩ : Range), "A"), (⟨0, 5⟩, "B")])
      [((⟨0, 10⟩ : Range), "A"), (⟨0, 5⟩, "B")] ∧
    ∀ rng : Range,
      (sortEntries [((⟨0, 10⟩ : Range), "A"), (⟨0, 5⟩, "B")]).filter
          (fun e => decide (e.1 = rng)) =
        [((⟨0, 10⟩ : Range), "A"), (⟨0, 5⟩, "B")].filter (fun e => decide (e.1 = rng)) :=
  c4_sort_lexicographic_stable [((⟨0, 10⟩ : Range), "A"), (⟨0, 5⟩, "B")]

/-- Closed witness for C5: an equal-valued entry merges at the `u64` top. -/
theorem c5_saturating_merge_at_boundary_witness :
    ((⟨0, 2 ^ 64 - 1⟩ : Range).end_ = 2 ^ 64 - 1 ∧ (2 ^ 64 - 1 : Nat) < 2 ^ 64) ∧
      scanRev [((⟨2 ^ 64 - 1, 2 ^ 64 - 1⟩ : Range), "M")] [(⟨0, 2 ^ 64 - 1⟩, "M")] [] =
        scanRev ([] : List (Entry String))
          [(⟨0, max (2 ^ 64 - 1) (2 ^ 64 - 1)⟩, "M")] [] :=
  ⟨⟨by decide, by decide⟩,
    c5_saturating_merge_at_boundary.2 String inferInstance ⟨0, 2 ^ 64 - 1⟩
      ⟨2 ^ 64 - 1, 2 ^ 64 - 1⟩ "M" "M" [] [] [] (by decide) (by decide) rfl⟩

end RangeMapSafe

namespace MinidumpCtx

lemma hexCharsAux_congr : ∀ (n f f' : Nat), n < f → n < f' →
    hexCharsAux f n = hexCharsAux f' n := by
  intro n
  induction n using Nat.strong_induction_on with
  | _ n ih =>
    intro f f' hf hf'
    cases f with
    | zero => omega
    | succ f =>
      cases f' with
      | zero => omega
      | succ f' =>
        simp only [hexCharsAux]
        by_cases h : n < 16
        · simp [h]
        · rw [if_neg h, if_neg h,
            ih (n / 16) (Nat.div_lt_self (by omega) (by omega)) f f' (by omega) (by omega)]

lemma hexChars_eq_aux (n f : Nat) (hf : n < f) : hexChars n = hexCharsAux f n :=
  hexCharsAux_congr n (n + 1) f (Nat.lt_succ_self n) hf

lemma hexChars_length_le : ∀ (n w : Nat), 0 < w → n < 16 ^ w → (hexChars n).length ≤ w := by
  intro n
  induction n using Nat.strong_induction_on with
  | _ n ih =>
    intro w hw hn
    by_cases h : n < 16
    · have : hexChars n = [hexDigitChar n] := by simp [hexChars, hexCharsAux, h]
      simp [this]
      omega
    · have hw2 : 2 ≤ w := by
        by_contra hc
        interval_cases w <;> omega
      have hdivlt : n / 16 < n := Nat.div_lt_self (by omega) (by omega)
      have hstep : hexChars n = hexChars (n / 16) ++ [hexDigitChar (n % 16)] := by
        have h1 : hexChars n = hexCharsAux (n + 1) n := rfl
        rw [h1]
        show hexCharsAux (n + 1) n = _
        simp only [hexCharsAux, if_neg h]
        rw [← hexChars_eq_aux (n / 16) n (by omega)]
      have hdb : n / 16 < 16 ^ (w - 1) := by
        have h16 : 16 ^ w = 16 ^ (w - 1) * 16 := by
          conv_lhs => rw [show w = (w - 1) + 1 by omega]
          rw [pow_succ]
        exact (Nat.div_lt_iff_lt_mul (by omega)).mpr (by omega)
      have := ih (n / 16) hdivlt (w - 1) (by omega) hdb
      rw [hstep]
      simp only [List.length_append, List.length_singleton]
      omega

lemma formatHex_length (width n : Nat) (hw : 0 < width) (hn : n < 16 ^ width) :
    (formatHex width n).length = 2 + width := by
  have h := hexChars_length_le n width hw hn
  simp [formatHex, String.length]
  omega

lemma getD_lt_of_all {l : List Nat} {B : Nat} (h : ∀ v ∈ l, v < B) (hB : 0 < B)
    (i : Nat) : l.getD i 0 < B := by
  rcases Nat.lt_or_ge i l.length with hi | hi
  · rw [List.getD_eq_getElem l 0 hi]
    exact h _ (List.getElem_mem hi)
  · rw [List.getD_eq_default l 0 hi]
    exact hB

/-- C6. `MinidumpContext::read` returns `UnknownCpuContext` for every slice
whose length matches none of the three flag-less record sizes (AMD64,
PPC64, ARM64-old) and whose leading 32-bit flag word's CPU-family bits
equal none of the six flag-dispatched architectures (X86, PPC, SPARC, ARM,
MIPS, ARM64). -/
theorem c6_unknown_cpu_context (bytes : List Nat) (endian : Endian)
    (h1 : bytes.length ≠ sizeOfCONTEXT_AMD64)
    (h2 : bytes.length ≠ sizeOfCONTEXT_PPC64)
    (h3 : bytes.length ≠ sizeOfCONTEXT_ARM64_OLD)
    (h4 : 4 ≤ bytes.length)
    (h5 : ContextFlagsCpu.from_flags (readU32 endian bytes 0) ∉
      [CONTEXT_X86_FLAG, CONTEXT_PPC_FLAG, CONTEXT_SPARC_FLAG, CONTEXT_ARM_FLAG,
        CONTEXT_MIPS_FLAG, CONTEXT_ARM64_FLAG]) :
    MinidumpContext.read bytes endian = .error .UnknownCpuContext := by
  simp only [List.mem_cons, List.not_mem_nil, or_false, not_or] at h5
  obtain ⟨g1, g2, g3, g4, g5, g6⟩ := h5
  unfold MinidumpContext.read
  rw [if_neg h1, if_neg h2, if_neg h3, if_neg (by omega)]
  simp only [if_neg g1, if_neg g2, if_neg g3, if_neg g4, if_neg g5, if_neg g6]

/-- Closed witness for C6 at scenario S6 (`200` bytes, flags `0xDEAD0000`). -/
theorem c6_unknown_cpu_context_witness :
    (unknownScenarioBytes.length ≠ sizeOfCONTEXT_AMD64 ∧
      unknownScenarioBytes.length ≠ sizeOfCONTEXT_PPC64 ∧
      unknownScenarioBytes.length ≠ sizeOfCONTEXT_ARM64_OLD ∧
      4 ≤ unknownScenarioBytes.length ∧
      ContextFlagsCpu.from_flags (readU32 .little unknownScenarioBytes 0) ∉
        [CONTEXT_X86_FLAG, CONTEXT_PPC_FLAG, CONTEXT_SPARC_FLAG, CONTEXT_ARM_FLAG,
          CONTEXT_MIPS_FLAG, CONTEXT_ARM64_FLAG]) ∧
    MinidumpContext.read unknownScenarioBytes .little = .error .UnknownCpuContext :=
  ⟨⟨by decide, by decide, by decide, by decide, by decide⟩,
    c6_unknown_cpu_context unknownScenarioBytes .little (by decide) (by decide)
      (by decide) (by decide) (by decide)⟩

lemma pow16_8 : (16 : Nat) ^ 8 = 2 ^ 32 := by norm_num

lemma pow16_16 : (16 : Nat) ^ 16 = 2 ^ 64 := by norm_num

/-- C7. Scenario S2: the 1232-byte AMD64-sized slice with
`context_flags = 0x10003F` and `rip = 0x7ff712345678` decodes through the
size-based path to the `Amd64` variant with `valid = All`; the instruction
pointer is `0x7ff712345678` and `format_register("rip")` prints it
zero-padded to 16 hex digits. -/
theorem c7_amd64_by_size :
    MinidumpContext.read amd64ScenarioBytes .little =
        .ok (MinidumpContext.from_raw (.Amd64 amd64ScenarioCtx)) ∧
      (MinidumpContext.from_raw (.Amd64 amd64ScenarioCtx)).valid =
        MinidumpContextValidity.All ∧
      (MinidumpContext.from_raw
          (.Amd64 amd64ScenarioCtx)).get_instruction_pointer = 0x7ff712345678 ∧
      (MinidumpContext.from_raw (.Amd64 amd64ScenarioCtx)).format_register "rip" =
        some "0x00007ff712345678" :=
  ⟨rfl, rfl, rfl, rfl⟩

lemma x86_set_register_none (c : CONTEXT_X86) (reg : String) (v : Nat)
    (h : reg ∉ X86_REGS) : c.set_register reg v = (none, c) := by
  have h0 : ¬(reg = "eip") := fun he => h (by rw [he]; decide)
  have h1 : ¬(reg = "esp") := fun he => h (by rw [he]; decide)
  have h2 : ¬(reg = "ebp") := fun he => h (by rw [he]; decide)
  have h3 : ¬(reg = "ebx") := fun he => h (by rw [he]; decide)
  have h4 : ¬(reg = "esi") := fun he => h (by rw [he]; decide)
  have h5 : ¬(reg = "edi") := fun he => h (by rw [he]; decide)
  have h6 : ¬(reg = "eax") := fun he => h (by rw [he]; decide)
  have h7 : ¬(reg = "ecx") := fun he => h (by rw [he]; decide)
  have h8 : ¬(reg = "edx") := fun he => h (by rw [he]; decide)
  have h9 : ¬(reg = "efl") := fun he => h (by rw [he]; decide)
  unfold CONTEXT_X86.set_register
  rw [if_neg h0, if_neg h1, if_neg h2, if_neg h3, if_neg h4, if_neg h5, if_neg h6, if_neg h7, if_neg h8, if_neg h9]

lemma x86_get_register_always_none (c : CONTEXT_X86) (reg : String)
    (h : reg ∉ X86_REGS) : c.get_register_always reg = none := by
  have h0 : ¬(reg = "eip") := fun he => h (by rw [he]; decide)
  have h1 : ¬(reg = "esp") := fun he => h (by rw [he]; decide)
  have h2 : ¬(reg = "ebp") := fun he => h (by rw [he]; decide)
  have h3 : ¬(reg = "ebx") := fun he => h (by rw [he]; decide)
  have h4 : ¬(reg = "esi") := fun he => h (by rw [he]; decide)
  have h5 : ¬(reg = "edi") := fun he => h (by rw [he]; decide)
  have h6 : ¬(reg = "eax") := fun he => h (by rw [he]; decide)
  have h7 : ¬(reg = "ecx") := fun he => h (by rw [he]; decide)
  have h8 : ¬(reg = "edx") := fun he => h (by rw [he]; decide)
  have h9 : ¬(reg = "efl") := fun he => h (by rw [he]; decide)
  unfold CONTEXT_X86.get_register_always
  rw [if_neg h0, if_neg h1, if_neg h2, if_neg h3, if_neg h4, if_neg h5, if_neg h6, if_neg h7, if_neg h8, if_neg h9]

lemma amd64_set_register_none (c : CONTEXT_AMD64) (reg : String) (v : Nat)
    (h : reg ∉ X86_64_REGS) : c.set_register reg v = (none, c) := by
  have h0 : ¬(reg = "rax") := fun he => h (by rw [he]; decide)
  have h1 : ¬(reg = "rdx") := fun he => h (by rw [he]; decide)
  have h2 : ¬(reg = "rcx") := fun he => h (by rw [he]; decide)
  have h3 : ¬(reg = "rbx") := fun he => h (by rw [he]; decide)
  have h4 : ¬(reg = "rsi") := fun he => h (by rw [he]; decide)
  have h5 : ¬(reg = "rdi") := fun he => h (by rw [he]; decide)
  have h6 : ¬(reg = "rbp") := fun he => h (by rw [he]; decide)
  have h7 : ¬(reg = "rsp") := fun he => h (by rw [he]; decide)
  have h8 : ¬(reg = "r8") := fun he => h (by rw [he]; decide)
  have h9 : ¬(reg = "r9") := fun he => h (by rw [he]; decide)
  have h10 : ¬(reg = "r10") := fun he => h (by rw [he]; decide)
  have h11 : ¬(reg = "r11") := fun he => h (by rw [he]; decide)
  have h12 : ¬(reg = "r12") := fun he => h (by rw [he]; decide)
  have h13 : ¬(reg = "r13") := fun he => h (by rw [he]; decide)
  have h14 : ¬(reg = "r14") := fun he => h (by rw [he]; decide)
  have h15 : ¬(reg = "r15") := fun he => h (by rw [he]; decide)
  have h16 : ¬(reg = "rip") := fun he => h (by rw [he]; decide)
  unfold CONTEXT_AMD64.set_register
  rw [if_neg h0, if_neg h1, if_neg h2, if_neg h3, if_neg h4, if_neg h5, if_neg h6, if_neg h7, if_neg h8, if_neg h9, if_neg h10, if_neg h11, if_neg h12, if_neg h13, if_neg h14, if_neg h15, if_neg h16]

lemma amd64_get_register_always_none (c : CONTEXT_AMD64) (reg : String)
    (h : reg ∉ X86_64_REGS) : c.get_register_always reg = none := by
  have h0 : ¬(reg = "rax") := fun he => h (by rw [he]; decide)
  have h1 : ¬(reg = "rdx") := fun he => h (by rw [he]; decide)
  have h2 : ¬(reg = "rcx") := fun he => h (by rw [he]; decide)
  have h3 : ¬(reg = "rbx") := fun he => h (by rw [he]; decide)
  have h4 : ¬(reg = "rsi") := fun he => h (by rw [he]; decide)
  have h5 : ¬(reg = "rdi") := fun he => h (by rw [he]; decide)
  have h6 : ¬(reg = "rbp") := fun he => h (by rw [he]; decide)
  have h7 : ¬(reg = "rsp") := fun he => h (by rw [he]; decide)
  have h8 : ¬(reg = "r8") := fun he => h (by rw [he]; decide)
  have h9 : ¬(reg = "r9") := fun he => h (by rw [he]; decide)
  have h10 : ¬(reg = "r10") := fun he => h (by rw [he]; decide)
  have h11 : ¬(reg = "r11") := fun he => h (by rw [he]; decide)
  have h12 : ¬(reg = "r12") := fun he => h (by rw [he]; decide)
  have h13 : ¬(reg = "r13") := fun he => h (by rw [he]; decide)
  have h14 : ¬(reg = "r14") := fun he => h (by rw [he]; decide)
  have h15 : ¬(reg = "r15") := fun he => h (by rw [he]; decide)
  have h16 : ¬(reg = "rip") := fun he => h (by rw [he]; decide)
  unfold CONTEXT_AMD64.get_register_always
  rw [if_neg h0, if_neg h1, if_neg h2, if_neg h3, if_neg h4, if_neg h5, if_neg h6, if_neg h7, if_neg h8, if_neg h9, if_neg h10, if_neg h11, if_neg h12, if_neg h13, if_neg h14, if_neg h15, if_neg h16]

lemma arm64SetRegister_none (iregs : List Nat) (pc : Nat) (reg : String) (v : Nat)
    (h : reg ∉ ARM64_ALPHABET) : arm64SetRegister iregs pc reg v = (none, iregs, pc) := by
  have h0 : ¬(reg = "x0") := fun he => h (by rw [he]; decide)
  have h1 : ¬(reg = "x1") := fun he => h (by rw [he]; decide)
  have h2 : ¬(reg = "x2") := fun he => h (by rw [he]; decide)
  have h3 : ¬(reg = "x3") := fun he => h (by rw [he]; decide)
  have h4 : ¬(reg = "x4") := fun he => h (by rw [he]; decide)
  have h5 : ¬(reg = "x5") := fun he => h (by rw [he]; decide)
  have h6 : ¬(reg = "x6") := fun he => h (by rw [he]; decide)
  have h7 : ¬(reg = "x7") := fun he => h (by rw [he]; decide)
  have h8 : ¬(reg = "x8") := fun he => h (by rw [he]; decide)
  have h9 : ¬(reg = "x9") := fun he => h (by rw [he]; decide)
  have h10 : ¬(reg = "x10") := fun he => h (by rw [he]; decide)
  have h11 : ¬(reg = "x11") := fun he => h (by rw [he]; decide)
  have h12 : ¬(reg = "x12") := fun he => h (by rw [he]; decide)
  have h13 : ¬(reg = "x13") := fun he => h (by rw [he]; decide)
  have h14 : ¬(reg = "x14") := fun he => h (by rw [he]; decide)
  have h15 : ¬(reg = "x15") := fun he => h (by rw [he]; decide)
  have h16 : ¬(reg = "x16") := fun he => h (by rw [he]; decide)
  have h17 : ¬(reg = "x17") := fun he => h (by rw [he]; decide)
  have h18 : ¬(reg = "x18") := fun he => h (by rw [he]; decide)
  have h19 : ¬(reg = "x19") := fun he => h (by rw [he]; decide)
  have h20 : ¬(reg = "x20") := fun he => h (by rw [he]; decide)
  have h21 : ¬(reg = "x21") := fun he => h (by rw [he]; decide)
  have h22 : ¬(reg = "x22") := fun he => h (by rw [he]; decide)
  have h23 : ¬(reg = "x23") := fun he => h (by rw [he]; decide)
  have h24 : ¬(reg = "x24") := fun he => h (by rw [he]; decide)
  have h25 : ¬(reg = "x25") := fun he => h (by rw [he]; decide)
  have h26 : ¬(reg = "x26") := fun he => h (by rw [he]; decide)
  have h27 : ¬(reg = "x27") := fun he => h (by rw [he]; decide)
  have h28 : ¬(reg = "x28") := fun he => h (by rw [he]; decide)
  have h29 : ¬(reg = "x29") := fun he => h (by rw [he]; decide)
  have h30 : ¬(reg = "x30") := fun he => h (by rw [he]; decide)
  have h31 : ¬(reg = "x31") := fun he => h (by rw [he]; decide)
  have h32 : ¬(reg = "pc") := fun he => h (by rw [he]; decide)
  have h33 : ¬(reg = "fp") := fun he => h (by rw [he]; decide)
  have h34 : ¬(reg = "sp") := fun he => h (by rw [he]; decide)
  unfold arm64SetRegister
  rw [if_neg h0, if_neg h1, if_neg h2, if_neg h3, if_neg h4, if_neg h5, if_neg h6, if_neg h7, if_neg h8, if_neg h9, if_neg h10, if_neg h11, if_neg h12, if_neg h13, if_neg h14, if_neg h15, if_neg h16, if_neg h17, if_neg h18, if_neg h19, if_neg h20, if_neg h21, if_neg h22, if_neg h23, if_neg h24, if_neg h25, if_neg h26, if_neg h27, if_neg h28, if_neg h29, if_neg h30, if_neg h31, if_neg h32, if_neg h33, if_neg h34]

lemma arm64GetRegisterAlways_none (iregs : List Nat) (pc : Nat) (reg : String)
    (h : reg ∉ ARM64_ALPHABET) : arm64GetRegisterAlways iregs pc reg = none := by
  have h0 : ¬(reg = "x0") := fun he => h (by rw [he]; decide)
  have h1 : ¬(reg = "x1") := fun he => h (by rw [he]; decide)
  have h2 : ¬(reg = "x2") := fun he => h (by rw [he]; decide)
  have h3 : ¬(reg = "x3") := fun he => h (by rw [he]; decide)
  have h4 : ¬(reg = "x4") := fun he => h (by rw [he]; decide)
  have h5 : ¬(reg = "x5") := fun he => h (by rw [he]; decide)
  have h6 : ¬(reg = "x6") := fun he => h (by rw [he]; decide)
  have h7 : ¬(reg = "x7") := fun he => h (by rw [he]; decide)
  have h8 : ¬(reg = "x8") := fun he => h (by rw [he]; decide)
  have h9 : ¬(reg = "x9") := fun he => h (by rw [he]; decide)
  have h10 : ¬(reg = "x10") := fun he => h (by rw [he]; decide)
  have h11 : ¬(reg = "x11") := fun he => h (by rw [he]; decide)
  have h12 : ¬(reg = "x12") := fun he => h (by rw [he]; decide)
  have h13 : ¬(reg = "x13") := fun he => h (by rw [he]; decide)
  have h14 : ¬(reg = "x14") := fun he => h (by rw [he]; decide)
  have h15 : ¬(reg = "x15") := fun he => h (by rw [he]; decide)
  have h16 : ¬(reg = "x16") := fun he => h (by rw [he]; decide)
  have h17 : ¬(reg = "x17") := fun he => h (by rw [he]; decide)
  have h18 : ¬(reg = "x18") := fun he => h (by rw [he]; decide)
  have h19 : ¬(reg = "x19") := fun he => h (by rw [he]; decide)
  have h20 : ¬(reg = "x20") := fun he => h (by rw [he]; decide)
  have h21 : ¬(reg = "x21") := fun he => h (by rw [he]; decide)
  have h22 : ¬(reg = "x22") := fun he => h (by rw [he]; decide)
  have h23 : ¬(reg = "x23") := fun he => h (by rw [he]; decide)
  have h24 : ¬(reg = "x24") := fun he => h (by rw [he]; decide)
  have h25 : ¬(reg = "x25") := fun he => h (by rw [he]; decide)
  have h26 : ¬(reg = "x26") := fun he => h (by rw [he]; decide)
  have h27 : ¬(reg = "x27") := fun he => h (by rw [he]; decide)
  have h28 : ¬(reg = "x28") := fun he => h (by rw [he]; decide)
  have h29 : ¬(reg = "x29") := fun he => h (by rw [he]; decide)
  have h30 : ¬(reg = "x30") := fun he => h (by rw [he]; decide)
  have h31 : ¬(reg = "x31") := fun he => h (by rw [he]; decide)
  have h32 : ¬(reg = "pc") := fun he => h (by rw [he]; decide)
  have h33 : ¬(reg = "fp") := fun he => h (by rw [he]; decide)
  have h34 : ¬(reg = "sp") := fun he => h (by rw [he]; decide)
  unfold arm64GetRegisterAlways
  rw [if_neg h0, if_neg h1, if_neg h2, if_neg h3, if_neg h4, if_neg h5, if_neg h6, if_neg h7, if_neg h8, if_neg h9, if_neg h10, if_neg h11, if_neg h12, if_neg h13, if_neg h14, if_neg h15, if_neg h16, if_neg h17, if_neg h18, if_neg h19, if_neg h20, if_neg h21, if_neg h22, if_neg h23, if_neg h24, if_neg h25, if_neg h26, if_neg h27, if_neg h28, if_neg h29, if_neg h30, if_neg h31, if_neg h32, if_neg h33, if_neg h34]

lemma lt64_of_lt32 {n : Nat} (h : n < 2 ^ 32) : n < 2 ^ 64 :=
  lt_of_lt_of_le h (by norm_num)

/-- C9. `get_instruction_pointer` and `get_stack_pointer` are total over all
nine raw-context variants: on every well-formed decoded context they return
the 64-bit widening of the architecture's designated instruction-pointer and
stack-pointer registers (ARM-32: `iregs[15]` and `iregs[13]`), always below
`2^64`. -/
theorem c9_ip_sp_total (raw : MinidumpRawContext) (valid : MinidumpContextValidity)
    (hwf : raw.Wf) :
    MinidumpContext.get_instruction_pointer ⟨raw, valid⟩ = specInstructionPointer raw ∧
    MinidumpContext.get_stack_pointer ⟨raw, valid⟩ = specStackPointer raw ∧
    MinidumpContext.get_instruction_pointer ⟨raw, valid⟩ < 2 ^ 64 ∧
    MinidumpContext.get_stack_pointer ⟨raw, valid⟩ < 2 ^ 64 := by
  cases raw with
  | X86 c =>
    obtain ⟨hf, h1, h2, _⟩ := hwf
    exact ⟨rfl, rfl, lt64_of_lt32 h1, lt64_of_lt32 h2⟩
  | Ppc c =>
    obtain ⟨hf, hs, hlen, hall⟩ := hwf
    exact ⟨rfl, rfl, lt64_of_lt32 hs,
      lt64_of_lt32 (getD_lt_of_all hall (by norm_num) _)⟩
  | Ppc64 c =>
    obtain ⟨hf, hs, hlen, hall⟩ := hwf
    exact ⟨rfl, rfl, hs, getD_lt_of_all hall (by norm_num) _⟩
  | Amd64 c =>
    obtain ⟨hf, h1, h2, h3, h4, h5, h6, h7, hrsp, h9, h10, h11, h12, h13, h14,
      h15, h16, hrip⟩ := hwf
    exact ⟨rfl, rfl, hrip, hrsp⟩
  | Sparc c =>
    obtain ⟨hf, hpc, hlen, hall⟩ := hwf
    exact ⟨rfl, rfl, hpc, getD_lt_of_all hall (by norm_num) _⟩
  | Arm c =>
    obtain ⟨hf, hlen, hall, hcpsr⟩ := hwf
    exact ⟨rfl, rfl, lt64_of_lt32 (getD_lt_of_all hall (by norm_num) _),
      lt64_of_lt32 (getD_lt_of_all hall (by norm_num) _)⟩
  | Arm64 c =>
    obtain ⟨hf, hlen, hall, hpc, hcpsr⟩ := hwf
    exact ⟨rfl, rfl, hpc, getD_lt_of_all hall (by norm_num) _⟩
  | OldArm64 c =>
    obtain ⟨hf, hlen, hall, hpc, hcpsr⟩ := hwf
    exact ⟨rfl, rfl, hpc, getD_lt_of_all hall (by norm_num) _⟩
  | Mips c =>
    obtain ⟨hf, hepc, hlen, hall⟩ := hwf
    exact ⟨rfl, rfl, hepc, getD_lt_of_all hall (by norm_num) _⟩

/-- Closed witness for C9 at a concrete ARM-32 context. -/
theorem c9_ip_sp_total_witness :
    (MinidumpRawContext.Arm armScenarioCtx).Wf ∧
    (MinidumpContext.get_instruction_pointer ⟨.Arm armScenarioCtx, .All⟩ =
        specInstructionPointer (.Arm armScenarioCtx) ∧
      MinidumpContext.get_stack_pointer ⟨.Arm armScenarioCtx, .All⟩ =
        specStackPointer (.Arm armScenarioCtx) ∧
      MinidumpContext.get_instruction_pointer ⟨.Arm armScenarioCtx, .All⟩ < 2 ^ 64 ∧
      MinidumpContext.get_stack_pointer ⟨.Arm armScenarioCtx, .All⟩ < 2 ^ 64) :=
  ⟨by decide, c9_ip_sp_total (.Arm armScenarioCtx) .All (by decide)⟩

/-- C8 counterexample: `MinidumpContext::format_register` on an ARM-32
context panics (`unimplemented!()`) instead of returning a hex string — for
`r13` (ARM's stack-pointer register) as for any other name — and even the
architecture's general-purpose register list panics. -/
theorem c8_counterexample :
    MinidumpContext.format_register ⟨.Arm armScenarioCtx, .All⟩ "r13" = none ∧
    MinidumpContext.general_purpose_registers (.Arm armScenarioCtx) = none :=
  ⟨rfl, rfl⟩

/-- C8 (amended). For the four variants whose display support is
implemented (x86, x86-64, ARM64, ARM64-old) — those for which
`general_purpose_registers` returns a list rather than panicking — and
every register name in that list, `format_register` returns, without
panicking, the register value formatted as zero-padded lowercase hex of
length `2 + 2 * word_size`; the other five variants panic
(`unimplemented!()`). -/
theorem c8_format_register_hex (raw : MinidumpRawContext) (hwf : raw.Wf)
    (l : List String)
    (hl : MinidumpContext.general_purpose_registers raw = some l) :
    ∀ reg ∈ l, ∃ v, raw.get_register_always reg = some v ∧
      MinidumpContext.format_register ⟨raw, .All⟩ reg =
        some (formatHex (2 * raw.word_size) v) ∧
      (formatHex (2 * raw.word_size) v).length = 2 + 2 * raw.word_size := by
  cases raw with
  | Arm c => exact absurd hl (by simp [MinidumpContext.general_purpose_registers])
  | Ppc c => exact absurd hl (by simp [MinidumpContext.general_purpose_registers])
  | Ppc64 c => exact absurd hl (by simp [MinidumpContext.general_purpose_registers])
  | Sparc c => exact absurd hl (by simp [MinidumpContext.general_purpose_registers])
  | Mips c => exact absurd hl (by simp [MinidumpContext.general_purpose_registers])
  | X86 c =>
    obtain ⟨hf, h1, h2, h3, h4, h5, h6, h7, h8, h9, h10⟩ := hwf
    simp only [MinidumpContext.general_purpose_registers, Option.some.injEq] at hl
    subst hl
    intro reg hreg
    simp only [X86_REGS] at hreg
    fin_cases hreg
    all_goals exact ⟨_, rfl, rfl,
      formatHex_length 8 _ (by norm_num) (by rw [pow16_8]; assumption)⟩
  | Amd64 c =>
    obtain ⟨hf, h1, h2, h3, h4, h5, h6, h7, h8, h9, h10, h11, h12, h13, h14,
      h15, h16, h17⟩ := hwf
    simp only [MinidumpContext.general_purpose_registers, Option.some.injEq] at hl
    subst hl
    intro reg hreg
    simp only [X86_64_REGS] at hreg
    fin_cases hreg
    all_goals exact ⟨_, rfl, rfl,
      formatHex_length 16 _ (by norm_num) (by rw [pow16_16]; assumption)⟩
  | Arm64 c =>
    obtain ⟨hf, hlen, hall, hpc, hcpsr⟩ := hwf
    simp only [MinidumpContext.general_purpose_registers, Option.some.injEq] at hl
    subst hl
    intro reg hreg
    simp only [ARM64_REGS] at hreg
    fin_cases hreg
    all_goals exact ⟨_, rfl, rfl,
      formatHex_length 16 _ (by norm_num)
        (by rw [pow16_16]
            first
            | exact getD_lt_of_all hall (by norm_num) _
            | assumption)⟩
  | OldArm64 c =>
    obtain ⟨hf, hlen, hall, hpc, hcpsr⟩ := hwf
    simp only [MinidumpContext.general_purpose_registers, Option.some.injEq] at hl
    subst hl
    intro reg hreg
    simp only [ARM64_REGS] at hreg
    fin_cases hreg
    all_goals exact ⟨_, rfl, rfl,
      formatHex_length 16 _ (by norm_num)
        (by rw [pow16_16]
            first
            | exact getD_lt_of_all hall (by norm_num) _
            | assumption)⟩

/-- Closed witness for C8 (amended) at a concrete x86 context. -/
theorem c8_format_register_hex_witness :
    ((MinidumpRawContext.X86 x86ScenarioCtx).Wf ∧
      MinidumpContext.general_purpose_registers (.X86 x86ScenarioCtx) =
        some X86_REGS) ∧
    ∀ reg ∈ X86_REGS, ∃ v,
      (MinidumpRawContext.X86 x86ScenarioCtx).get_register_always reg = some v ∧
      MinidumpContext.format_register ⟨.X86 x86ScenarioCtx, .All⟩ reg =
        some (formatHex (2 * (MinidumpRawContext.X86 x86ScenarioCtx).word_size) v) ∧
      (formatHex (2 * (MinidumpRawContext.X86 x86ScenarioCtx).word_size) v).length =
        2 + 2 * (MinidumpRawContext.X86 x86ScenarioCtx).word_size :=
  ⟨⟨by decide, rfl⟩,
    c8_format_register_hex (.X86 x86ScenarioCtx) (by decide) X86_REGS rfl⟩

/-- C10. For each of the four variants implementing the `CpuContext`
register-access capability (x86, AMD64, ARM64, ARM64-old), `set_register`
with a name outside the architecture's register alphabet returns `None`
and leaves the context unchanged, whereas `get_register_always` with such
a name panics (`unreachable!`, embedded as `none`) rather than reporting
an error. -/
theorem c10_unknown_register_name (reg : String) :
    (∀ (c : CONTEXT_X86) (v : Nat), reg ∉ X86_REGS →
      c.set_register reg v = (none, c) ∧ c.get_register_always reg = none) ∧
    (∀ (c : CONTEXT_AMD64) (v : Nat), reg ∉ X86_64_REGS →
      c.set_register reg v = (none, c) ∧ c.get_register_always reg = none) ∧
    (∀ (c : CONTEXT_ARM64) (v : Nat), reg ∉ ARM64_ALPHABET →
      c.set_register reg v = (none, c) ∧ c.get_register_always reg = none) ∧
    (∀ (c : CONTEXT_ARM64_OLD) (v : Nat), reg ∉ ARM64_ALPHABET →
      c.set_register reg v = (none, c) ∧ c.get_register_always reg = none) := by
  refine ⟨fun c v h => ⟨x86_set_register_none c reg v h,
      x86_get_register_always_none c reg h⟩,
    fun c v h => ⟨amd64_set_register_none c reg v h,
      amd64_get_register_always_none c reg h⟩,
    fun c v h => ⟨?_, arm64GetRegisterAlways_none c.iregs c.pc reg h⟩,
    fun c v h => ⟨?_, arm64GetRegisterAlways_none c.iregs c.pc reg h⟩⟩
  · show CONTEXT_ARM64.set_register c reg v = (none, c)
    unfold CONTEXT_ARM64.set_register
    rw [arm64SetRegister_none c.iregs c.pc reg v h]
  · show CONTEXT_ARM64_OLD.set_register c reg v = (none, c)
    unfold CONTEXT_ARM64_OLD.set_register
    rw [arm64SetRegister_none c.iregs c.pc reg v h]

/-- Closed witness for C10 at the unknown register name `bogus`. -/
theorem c10_unknown_register_name_witness :
    ("bogus" ∉ X86_REGS ∧ "bogus" ∉ ARM64_ALPHABET) ∧
    (x86ScenarioCtx.set_register "bogus" 5 = (none, x86ScenarioCtx) ∧
      x86ScenarioCtx.get_register_always "bogus" = none) :=
  ⟨⟨by decide, by decide⟩, (c10_unknown_register_name "bogus").1 x86ScenarioCtx 5 (by decide)⟩

end MinidumpCtx

